import Mathlib

set_option maxRecDepth 16384

/-!
Verification development for the `likedin_jobs` repository.

The repository is a small Python pipeline (`app.py`, `prompts.py`,
`utils/db_connection.py`) that normalizes LLM output about job postings into
two schema-complete records and stores them in a document database.

This file gives a shallow embedding of the pipeline's pure logic:

* JSON values are modelled by the inductive `Json`; Python dicts by
  association lists (`JObj`) with Python-dict semantics for membership,
  lookup and assignment (`dcontains`, `dlookup`, `dget`, `dset`:
  assignment replaces in place, new keys append at the end, which is
  exactly CPython's insertion-order behaviour).
* `datetime.now()` is modelled by a parameter `today : Nat`, a day number in
  the proleptic Gregorian calendar counted from 0000-03-01 (so 0001-01-01 is
  day 306); `daysFromCivil`/`civilFromDays` convert both ways.
* `json.loads` is modelled by a strict fuel-based JSON parser
  (`json_loadsL`); a Python exception anywhere is modelled by `Option.none`
  / `Except.error`.
* Numeric JSON literals carrying a fraction or exponent are kept as their
  lexeme (`Json.numF`): Python float semantics (rounding, underflow) are not
  modelled; no claim in this development depends on float values.
* Unicode-only behaviours (`str.lower`, `str.strip`, `\s`, `\d` beyond
  ASCII, `\uXXXX` surrogate handling) are modelled on the ASCII fragment,
  which is the fragment every claim exercises.

Each claim theorem cites the Python function it is about.
-/

/-- JSON values as produced by `json.loads`.

`num` holds an integer literal; `numF` holds the raw lexeme of a literal
with a fraction or exponent (or `NaN`/`Infinity`, which Python's `json`
accepts).  Objects are insertion-ordered association lists, as CPython
dicts are. -/
inductive Json where
  | null : Json
  | bool (b : Bool) : Json
  | num (n : Int) : Json
  | numF (lexeme : String) : Json
  | str (s : String) : Json
  | arr (xs : List Json) : Json
  | obj (kvs : List (String × Json)) : Json

/-- A Python dict with string keys, in insertion order. -/
abbrev JObj := List (String × Json)

/-- `d.get(key)` as an `Option`: first binding of `key`. -/
def dlookup : JObj → String → Option Json
  | [], _ => none
  | (k, v) :: rest, key => if k = key then some v else dlookup rest key

/-- `key in d` for a Python dict. -/
def dcontains (r : JObj) (key : String) : Bool :=
  (dlookup r key).isSome

/-- `d.get(key, dflt)` for a Python dict. -/
def dget (r : JObj) (key : String) (dflt : Json) : Json :=
  (dlookup r key).getD dflt

/-- `d[key] = v` for a Python dict: replace in place if the key exists,
otherwise append at the end (CPython insertion order). -/
def dset : JObj → String → Json → JObj
  | [], key, v => [(key, v)]
  | (k, w) :: rest, key, v =>
      if k = key then (k, v) :: rest else (k, w) :: dset rest key v

/-- Python truthiness of a JSON value (`if value:`).

For `numF` the value is truthy when the lexeme has a nonzero digit or is a
`NaN`/`Infinity` form; float underflow to `0.0` is not modelled. -/
def truthy : Json → Bool
  | Json.null => false
  | Json.bool b => b
  | Json.num n => !(n == 0)
  | Json.numF lexeme =>
      lexeme.toList.any (fun c => ('1' ≤ c && c ≤ '9') || c = 'N' || c = 'I')
  | Json.str s => !(s == "")
  | Json.arr xs => !xs.isEmpty
  | Json.obj kvs => !kvs.isEmpty

/-- The underlying object of a `Json.obj`, `[]` otherwise. -/
def asObj : Json → JObj
  | Json.obj kvs => kvs
  | _ => []

/-- Whether a JSON value is an array (a JSON "sequence"). -/
def isArr : Json → Bool
  | Json.arr _ => true
  | _ => false

/-- Whether a JSON value is an object (a dict). -/
def isObj : Json → Bool
  | Json.obj _ => true
  | _ => false

/-- The underlying string of a `Json.str`, `""` otherwise. -/
def asStr : Json → String
  | Json.str s => s
  | _ => ""

/- ## Character and string helpers (ASCII fragment of the Python behaviours) -/

/-- Characters stripped by `str.strip()` (ASCII whitespace). -/
def pyIsSpace (c : Char) : Bool :=
  c = ' ' || c = '\t' || c = '\n' || c = '\r' || c = '\x0b' || c = '\x0c'

/-- ASCII decimal digit, the fragment of `\d` every claim exercises. -/
def isDigitA (c : Char) : Bool :=
  '0' ≤ c && c ≤ '9'

/-- `str.lower()` on the ASCII fragment. -/
def lowerChar (c : Char) : Char :=
  if 'A' ≤ c && c ≤ 'Z' then Char.ofNat (c.toNat + 32) else c

/-- `str.lower()` on a character list. -/
def lowerL (s : List Char) : List Char :=
  s.map lowerChar

/-- `str.strip()` on a character list. -/
def pyStripL (s : List Char) : List Char :=
  ((s.dropWhile pyIsSpace).reverse.dropWhile pyIsSpace).reverse

/-- `needle` is a prefix of `haystack` (used for `str.startswith` and the
substring scan). -/
def leadsWith : List Char → List Char → Bool
  | [], _ => true
  | _ :: _, [] => false
  | n :: ns, h :: hs => n = h && leadsWith ns hs

/-- `needle in haystack` for Python strings (substring containment). -/
def hasSub (needle : List Char) : List Char → Bool
  | [] => leadsWith needle []
  | c :: rest => leadsWith needle (c :: rest) || hasSub needle rest

/-- `str.endswith` on character lists. -/
def trailsWith (needle s : List Char) : Bool :=
  leadsWith needle.reverse s.reverse

/-- Helper for `pyWordCount`: the flag records whether the previous
character was inside a word. -/
def pyWordCountAux : List Char → Bool → Nat
  | [], _ => 0
  | c :: rest, inWord =>
      if pyIsSpace c then pyWordCountAux rest false
      else (if inWord then 0 else 1) + pyWordCountAux rest true

/-- Number of maximal runs of non-whitespace: `len(text.split())`. -/
def pyWordCount (s : List Char) : Nat :=
  pyWordCountAux s false

/-- `str.find(ch)`: index of the first occurrence. -/
def findIdxCh (ch : Char) : List Char → Option Nat
  | [] => none
  | c :: rest =>
      if c = ch then some 0 else (findIdxCh ch rest).map (· + 1)

/-- `str.rfind(ch)`: index of the last occurrence. -/
def rfindIdxCh (ch : Char) (s : List Char) : Option Nat :=
  (findIdxCh ch s.reverse).map (fun i => s.length - 1 - i)

/-- Digits to a natural number (`int(...)` on a digit string). -/
def digitsToNat (ds : List Char) : Nat :=
  ds.foldl (fun acc c => acc * 10 + (c.toNat - 48)) 0

/- ## Proleptic Gregorian calendar

Day numbers count civil days from 0000-03-01 (so all arithmetic stays in
`Nat`); 0001-01-01 is day 306.  `datetime` rejects dates before 0001-01-01,
which is the `OverflowError` guard used below. -/

/-- Day number of the civil date `(y, m, d)`; valid for years ≥ 1. -/
def daysFromCivil (y m d : Nat) : Nat :=
  let y' := if m ≤ 2 then y - 1 else y
  let era := y' / 400
  let yoe := y' - era * 400
  let mp := (m + 9) % 12
  let doy := (153 * mp + 2) / 5 + d - 1
  let doe := yoe * 365 + yoe / 4 - yoe / 100 + doy
  era * 146097 + doe

/-- Civil date `(y, m, d)` of a day number. -/
def civilFromDays (z : Nat) : Nat × Nat × Nat :=
  let era := z / 146097
  let doe := z % 146097
  let yoe := (doe - doe / 1460 + doe / 36524 - doe / 146096) / 365
  let y := yoe + era * 400
  let doy := doe - (365 * yoe + yoe / 4 - yoe / 100)
  let mp := (5 * doy + 2) / 153
  let d := doy - (153 * mp + 2) / 5 + 1
  let m := if mp < 10 then mp + 3 else mp - 9
  if m ≤ 2 then (y + 1, m, d) else (y, m, d)

/-- Left-pad a number with zeros (`%Y`, `%m`, `%d`). -/
def padNum (width n : Nat) : String :=
  let s := toString n
  String.mk (List.replicate (width - s.length) '0') ++ s

/-- `date.strftime("%Y-%m-%d")` for a day number. -/
def fmtDate (dn : Nat) : String :=
  let c := civilFromDays dn
  padNum 4 c.1 ++ "-" ++ padNum 2 c.2.1 ++ "-" ++ padNum 2 c.2.2

/-- Day number of 0001-01-01, the `datetime.min` boundary. -/
def minDateDay : Nat := 306

/-- `(datetime.now() - timedelta(days=days)).strftime("%Y-%m-%d")` given
`today` as a day number; `none` models the `OverflowError` raised when the
result would fall before 0001-01-01 (or `timedelta` itself overflows). -/
def dateAgo (today days : Nat) : Option String :=
  if minDateDay + days ≤ today then some (fmtDate (today - days)) else none

/-- True Gregorian leap year. -/
def isLeap (y : Nat) : Bool :=
  (y % 4 == 0 && y % 100 != 0) || y % 400 == 0

/-- Days in a month. -/
def daysInMonth (y m : Nat) : Nat :=
  if m = 2 then (if isLeap y then 29 else 28)
  else if m = 4 || m = 6 || m = 9 || m = 11 then 30
  else 31

/- ## Strict JSON parsing (`json.loads`)

A fuel-based recursive-descent parser.  Fuel bounds the depth of nested
recursive calls; every nested call follows the consumption of at least one
input character, so the fuel supplied by `json_loadsL` can never run out.
`none` models `json.JSONDecodeError`. -/

/-- JSON inter-token whitespace (`json` module: space, tab, newline, return). -/
def skipWsJ : List Char → List Char
  | [] => []
  | c :: rest =>
      if c = ' ' || c = '\t' || c = '\n' || c = '\r' then skipWsJ rest
      else c :: rest

/-- Value of a hex digit. -/
def hexVal (c : Char) : Option Nat :=
  if '0' ≤ c && c ≤ '9' then some (c.toNat - 48)
  else if 'a' ≤ c && c ≤ 'f' then some (c.toNat - 87)
  else if 'A' ≤ c && c ≤ 'F' then some (c.toNat - 55)
  else none

/-- Body of a JSON string after the opening quote, with strict escape
handling: raw control characters are rejected, `\uXXXX` surrogate pairs are
combined.  (A lone surrogate, which Python keeps as a surrogate code unit,
falls outside Lean's `Char` and degrades to `Char.ofNat`'s default; no claim
exercises it.)  Returns the decoded characters and the rest of the input. -/
def parseStrChars : Nat → List Char → List Char → Option (List Char × List Char)
  | 0, _, _ => none
  | _ + 1, [], _ => none
  | fuel + 1, c :: rest, acc =>
      if c = '"' then some (acc.reverse, rest)
      else if c = '\\' then
        match rest with
        | [] => none
        | e :: r =>
          if e = '"' then parseStrChars fuel r ('"' :: acc)
          else if e = '\\' then parseStrChars fuel r ('\\' :: acc)
          else if e = '/' then parseStrChars fuel r ('/' :: acc)
          else if e = 'b' then parseStrChars fuel r ('\x08' :: acc)
          else if e = 'f' then parseStrChars fuel r ('\x0c' :: acc)
          else if e = 'n' then parseStrChars fuel r ('\n' :: acc)
          else if e = 'r' then parseStrChars fuel r ('\r' :: acc)
          else if e = 't' then parseStrChars fuel r ('\t' :: acc)
          else if e = 'u' then
            match r with
            | h1 :: h2 :: h3 :: h4 :: r2 =>
              match hexVal h1, hexVal h2, hexVal h3, hexVal h4 with
              | some a, some b, some cc, some d =>
                let n := ((a * 16 + b) * 16 + cc) * 16 + d
                if 0xD800 ≤ n && n ≤ 0xDBFF then
                  match r2 with
                  | '\\' :: 'u' :: g1 :: g2 :: g3 :: g4 :: r3 =>
                    match hexVal g1, hexVal g2, hexVal g3, hexVal g4 with
                    | some a2, some b2, some c2, some d2 =>
                      let n2 := ((a2 * 16 + b2) * 16 + c2) * 16 + d2
                      if 0xDC00 ≤ n2 && n2 ≤ 0xDFFF then
                        parseStrChars fuel r3
                          (Char.ofNat (0x10000 + (n - 0xD800) * 0x400 + (n2 - 0xDC00)) :: acc)
                      else parseStrChars fuel r2 (Char.ofNat n :: acc)
                    | _, _, _, _ => parseStrChars fuel r2 (Char.ofNat n :: acc)
                  | _ => parseStrChars fuel r2 (Char.ofNat n :: acc)
                else parseStrChars fuel r2 (Char.ofNat n :: acc)
              | _, _, _, _ => none
            | _ => none
          else none
      else if c.toNat < 0x20 then none
      else parseStrChars fuel rest (c :: acc)

/-- A JSON number per the `json` module's `NUMBER_RE`:
`-?(0|[1-9]\d*)(\.\d+)?([eE][-+]?\d+)?`.  Integer literals become
`Json.num`; literals with a fraction or exponent keep their lexeme in
`Json.numF`.  Returns the value and the rest of the input. -/
def parseNumber (s : List Char) : Option (Json × List Char) :=
  let (neg, s1) := match s with
    | '-' :: r => (true, r)
    | r => (false, r)
  match s1 with
  | [] => none
  | c :: _ =>
    if !isDigitA c then none
    else
      let intd := if c = '0' then ['0'] else s1.takeWhile isDigitA
      let s2 := s1.drop intd.length
      let fracd := match s2 with
        | '.' :: r2 => if (r2.takeWhile isDigitA) = [] then [] else '.' :: r2.takeWhile isDigitA
        | _ => []
      let s3 := s2.drop fracd.length
      let expd := match s3 with
        | 'e' :: '+' :: r3 => if (r3.takeWhile isDigitA) = [] then [] else 'e' :: '+' :: r3.takeWhile isDigitA
        | 'e' :: '-' :: r3 => if (r3.takeWhile isDigitA) = [] then [] else 'e' :: '-' :: r3.takeWhile isDigitA
        | 'e' :: r3 => if (r3.takeWhile isDigitA) = [] then [] else 'e' :: r3.takeWhile isDigitA
        | 'E' :: '+' :: r3 => if (r3.takeWhile isDigitA) = [] then [] else 'E' :: '+' :: r3.takeWhile isDigitA
        | 'E' :: '-' :: r3 => if (r3.takeWhile isDigitA) = [] then [] else 'E' :: '-' :: r3.takeWhile isDigitA
        | 'E' :: r3 => if (r3.takeWhile isDigitA) = [] then [] else 'E' :: r3.takeWhile isDigitA
        | _ => []
      let s4 := s3.drop expd.length
      let lexeme := (if neg then ['-'] else []) ++ intd ++ fracd ++ expd
      if fracd = [] && expd = [] then
        let v : Int := Int.ofNat (digitsToNat intd)
        some (Json.num (if neg then -v else v), s4)
      else
        some (Json.numF (String.mk lexeme), s4)

/-- Parser mode: a whole value, the members of an object (accumulating into
a dict with `dset`, so a duplicate key overwrites as in Python), or the
items of an array. -/
inductive JMode where
  | value : JMode
  | members (acc : JObj) : JMode
  | items (acc : List Json) : JMode

/-- One strict JSON parse step; `s` starts at a non-whitespace position. -/
def jstep : Nat → JMode → List Char → Option (Json × List Char)
  | 0, _, _ => none
  | fuel + 1, JMode.value, s =>
    (match s with
     | '{' :: r =>
       (match skipWsJ r with
        | '}' :: r2 => some (Json.obj [], r2)
        | s' => jstep fuel (JMode.members []) s')
     | '[' :: r =>
       (match skipWsJ r with
        | ']' :: r2 => some (Json.arr [], r2)
        | s' => jstep fuel (JMode.items []) s')
     | '"' :: r =>
       (match parseStrChars (r.length + 1) r [] with
        | some (cs, r2) => some (Json.str (String.mk cs), r2)
        | none => none)
     | 't' :: 'r' :: 'u' :: 'e' :: r => some (Json.bool true, r)
     | 'f' :: 'a' :: 'l' :: 's' :: 'e' :: r => some (Json.bool false, r)
     | 'n' :: 'u' :: 'l' :: 'l' :: r => some (Json.null, r)
     | 'N' :: 'a' :: 'N' :: r => some (Json.numF "NaN", r)
     | 'I' :: 'n' :: 'f' :: 'i' :: 'n' :: 'i' :: 't' :: 'y' :: r =>
         some (Json.numF "Infinity", r)
     | '-' :: 'I' :: 'n' :: 'f' :: 'i' :: 'n' :: 'i' :: 't' :: 'y' :: r =>
         some (Json.numF "-Infinity", r)
     | s' => parseNumber s')
  | fuel + 1, JMode.members acc, s =>
    (match s with
     | '"' :: r =>
       (match parseStrChars (r.length + 1) r [] with
        | some (kcs, r2) =>
          (match skipWsJ r2 with
           | ':' :: r3 =>
             (match jstep fuel JMode.value (skipWsJ r3) with
              | some (v, r4) =>
                let acc' := dset acc (String.mk kcs) v
                (match skipWsJ r4 with
                 | ',' :: r5 =>
                   (match skipWsJ r5 with
                    | s5 => jstep fuel (JMode.members acc') s5)
                 | '}' :: r5 => some (Json.obj acc', r5)
                 | _ => none)
              | none => none)
           | _ => none)
        | none => none)
     | _ => none)
  | fuel + 1, JMode.items acc, s =>
    (match jstep fuel JMode.value s with
     | some (v, r) =>
       (match skipWsJ r with
        | ',' :: r2 => jstep fuel (JMode.items (v :: acc)) (skipWsJ r2)
        | ']' :: r2 => some (Json.arr (v :: acc).reverse, r2)
        | _ => none)
     | none => none)

/-- `json.loads` on a character list: skip leading whitespace, parse one
value, require only whitespace after it. -/
def json_loadsL (t : List Char) : Option Json :=
  match jstep (t.length * 2 + 16) JMode.value (skipWsJ t) with
  | some (v, rest) => if skipWsJ rest = [] then some v else none
  | none => none

/- ## `app.py`: `validate_job_posting_text` -/

/-- `job_keywords` from `app.py` (at least 3 should be present). -/
def job_keywords : List String :=
  ["job", "position", "role", "career", "opportunity", "opening",
   "company", "employer", "organization", "hiring", "recruiting",
   "location", "city", "state", "country", "remote", "hybrid", "on-site",
   "responsibilities", "requirements", "qualifications", "skills",
   "experience", "years", "full-time", "part-time", "contract",
   "salary", "compensation", "benefits", "apply", "application",
   "engineer", "developer", "manager", "analyst", "specialist", "associate"]

/-- `job_patterns` from `app.py`. -/
def job_patterns : List String :=
  ["about the job", "job description", "job title", "position title",
   "we are seeking", "we are looking for", "join our team",
   "required skills", "technical skills", "must have", "should have"]

/-- `invalid_indicators` from `app.py`. -/
def invalid_indicators : List String :=
  ["lorem ipsum", "test text", "sample text", "placeholder",
   "this is a test", "dummy data", "example text", "random text"]

/-- `location_indicators` from `app.py`. -/
def location_indicators : List String :=
  ["location", "city", "state", "country", "remote", "hybrid", "on-site",
   "india", "bengaluru", "mumbai", "delhi", "pune"]

/-- `title_indicators` from `app.py`. -/
def title_indicators : List String :=
  ["engineer", "developer", "manager", "analyst", "specialist", "associate",
   "lead", "senior", "junior"]

/-- Rejection message for too-short input (the source's warning symbol is
mojibake in the repository; reproduced as plain text here, which no claim
depends on). -/
def msg_too_short : String :=
  "The input text is too short. Please paste the complete job posting content."

/-- Rejection message when fewer than 3 keywords and no pattern matched. -/
def msg_not_job_posting : String :=
  "**Invalid Input: This doesn't appear to be a job posting.**\n        \nPlease ensure you paste the **complete job description** from LinkedIn, including:\n- Job title/position name\n- Company name  \n- Location information (city, state, country)\n- Job responsibilities or requirements\n- Skills or qualifications needed\n- Any other job-related details\n\n**Please copy and paste the full job posting content from LinkedIn.**"

/-- Rejection message naming a placeholder/test marker. -/
def msg_indicator (indicator : String) : String :=
  "**Invalid Input:** The text contains test/placeholder content ('" ++ indicator
    ++ "').\n\nPlease paste **actual job posting content** from LinkedIn."

/-- Rejection message for too few words. -/
def msg_word_count (word_count : Nat) : String :=
  "**Input too short:** The text has only " ++ toString word_count
    ++ " words, which is too short for a job posting.\n\nPlease paste the **complete job posting** with all details."

/-- Rejection message for missing location/title indicators. -/
def msg_missing_indicators : String :=
  "**Input validation failed:** The text doesn't contain enough job posting indicators.\n        \nPlease make sure you're pasting:\n- A complete LinkedIn job posting\n- Including job title, company name, and location\n- With job responsibilities and requirements\n\n**Please copy the entire job posting from LinkedIn and try again.**"

/-- `validate_job_posting_text` (`app.py` lines 20-104): heuristic gate on
the raw text, returning `(is_valid, error_message)`. -/
def validate_job_posting_text (text : String) : Bool × String :=
  let tl := text.toList
  if text = "" || (pyStripL tl).length < 50 then (false, msg_too_short)
  else
    let text_lower := lowerL tl
    let found_keywords := job_keywords.filter (fun k => hasSub k.toList text_lower)
    let found_patterns := job_patterns.filter (fun p => hasSub p.toList text_lower)
    if found_keywords.length < 3 && found_patterns.length = 0 then
      (false, msg_not_job_posting)
    else
      match invalid_indicators.find? (fun i => hasSub i.toList text_lower) with
      | some indicator => (false, msg_indicator indicator)
      | none =>
        let word_count := pyWordCount tl
        if word_count < 20 then (false, msg_word_count word_count)
        else
          let has_location := location_indicators.any (fun i => hasSub i.toList text_lower)
          let has_title := title_indicators.any (fun i => hasSub i.toList text_lower)
          if !has_location && !has_title && found_keywords.length < 5 then
            (false, msg_missing_indicators)
          else (true, "")

/- ## `app.py`: `parse_relative_date` -/

/-- Match, at the head of `s`, the regex fragment
`(\d+)\s+<unit>s?\s+ago` (greedy digit/whitespace runs; the greedy parse is
equivalent to the backtracking regex here because digits, whitespace, the
unit word and `"ago"` start with pairwise distinct character classes).
Returns the number on success. -/
def matchRelAt (unit : List Char) (s : List Char) : Option Nat :=
  let ds := s.takeWhile isDigitA
  if ds = [] then none
  else
    let s1 := s.drop ds.length
    let ws := s1.takeWhile pyIsSpace
    if ws = [] then none
    else
      let s2 := s1.drop ws.length
      if leadsWith unit s2 then
        let s3 := s2.drop unit.length
        let s4 := match s3 with
          | 's' :: r => r
          | r => r
        let ws2 := s4.takeWhile pyIsSpace
        if ws2 = [] then none
        else
          let s5 := s4.drop ws2.length
          if leadsWith ("ago".toList) s5 then some (digitsToNat ds) else none
      else none

/-- `re.search(r'(\d+)\s+<unit>s?\s+ago', s)`: the leftmost match, returning
`int(match.group(1))`. -/
def searchRel (unit : List Char) : List Char → Option Nat
  | [] => none
  | c :: rest =>
      match matchRelAt unit (c :: rest) with
      | some n => some n
      | none => searchRel unit rest

/-- `re.match(r'^\d{4}-\d{2}-\d{2}$', s)`: anchored match; Python's `$` also
accepts one trailing newline. -/
def matchYMDRegex (s : List Char) : Bool :=
  match s with
  | [a, b, c, d, '-', e, f, '-', g, h] =>
      isDigitA a && isDigitA b && isDigitA c && isDigitA d
        && isDigitA e && isDigitA f && isDigitA g && isDigitA h
  | [a, b, c, d, '-', e, f, '-', g, h, '\n'] =>
      isDigitA a && isDigitA b && isDigitA c && isDigitA d
        && isDigitA e && isDigitA f && isDigitA g && isDigitA h
  | _ => false

/-- `datetime.strptime(s, "%Y-%m-%d")`: `some (y, m, d)` when `s` is exactly
`YYYY-MM-DD` for a real calendar date with year ≥ 1 (`datetime.MINYEAR`),
`none` when it raises `ValueError`. -/
def strptimeYMD (s : String) : Option (Nat × Nat × Nat) :=
  match s.toList with
  | [a, b, c, d, '-', e, f, '-', g, h] =>
      if isDigitA a && isDigitA b && isDigitA c && isDigitA d
          && isDigitA e && isDigitA f && isDigitA g && isDigitA h then
        let y := digitsToNat [a, b, c, d]
        let m := digitsToNat [e, f]
        let day := digitsToNat [g, h]
        if 1 ≤ y && 1 ≤ m && m ≤ 12 && 1 ≤ day && day ≤ daysInMonth y m then
          some (y, m, day)
        else none
      else none
  | _ => none

/-- `parse_relative_date(text, field_value)` (`app.py` lines 123-177),
with `datetime.now()`'s date supplied as the day number `today`.

The result is the returned string; `none` models an uncaught exception
(`TypeError` from `re.match` on a truthy non-string `field_value`, or
`OverflowError` from the date subtraction). -/
def parse_relative_date (today : Nat) (text : String) (field_value : Json) :
    Option String :=
  match searchRel ("week".toList) (lowerL text.toList) with
  | some weeks => dateAgo today (weeks * 7)
  | none =>
  match searchRel ("month".toList) (lowerL text.toList) with
  | some months => dateAgo today (months * 30)
  | none =>
  match searchRel ("day".toList) (lowerL text.toList) with
  | some days => dateAgo today days
  | none =>
  match searchRel ("year".toList) (lowerL text.toList) with
  | some years => dateAgo today (years * 365)
  | none =>
    if truthy field_value then
      match field_value with
      | Json.str s =>
        if matchYMDRegex s.toList then
          match strptimeYMD s with
          | some ymd =>
              if 2024 ≤ ymd.1 then some s
              else some (if truthy (Json.str s) then s else "")
          | none => some (if truthy (Json.str s) then s else "")
        else some (if truthy (Json.str s) then s else "")
      | _ => none
    else some ""

/- ## `app.py`: `extract_job_data_with_llm` (lines 180-402)

The backend call itself is external; the embedding takes the backend's
message content (`response`) and the raw posting text as inputs and models
lines 222-383.  Any uncaught Python exception inside the `try` is caught by
the final generic handler and turns into `return None, None`, i.e. `none`. -/

/-- Lines 222-245: strip, remove markdown code fences, strip again (twice in
the source), then discard characters before the first `{` (only when it is
not already first) and after the last `}` (only when it is neither first nor
last). -/
def cleanText (response : String) : List Char :=
  let t0 := pyStripL response.toList
  let t1 := if leadsWith ("```json".toList) t0 then t0.drop 7 else t0
  let t2 := if leadsWith ("```".toList) t1 then t1.drop 3 else t1
  let t3 := if trailsWith ("```".toList) t2 then t2.take (t2.length - 3) else t2
  let t4 := pyStripL t3
  let t5 := pyStripL t4
  let t6 := match findIdxCh '{' t5 with
    | some i => if 0 < i then t5.drop i else t5
    | none => t5
  match rfindIdxCh '}' t6 with
  | some j => if 0 < j && j < t6.length - 1 then t6.take (j + 1) else t6
  | none => t6

/-- Lines 264-276: the single repair retry after a parse failure — slice
from the first `{` to the last `}` (requiring the latter to come strictly
after the former) and reparse; any failure yields no record. -/
def retryParse (t : List Char) : Option Json :=
  match findIdxCh '{' t, rfindIdxCh '}' t with
  | some i, some j =>
      if i < j then json_loadsL ((t.drop i).take (j + 1 - i)) else none
  | _, _ => none

/-- Lines 237-276: strict parse of the cleaned text, then exactly one
boundary-extraction retry. -/
def repairParse (response : String) : Option Json :=
  match json_loadsL (cleanText response) with
  | some v => some v
  | none => retryParse (cleanText response)

/-- Lines 294-304: company record synthesized from a flat job object. -/
def companyFromFlat (extracted_data : JObj) : JObj :=
  [("name", dget extracted_data "company" (Json.str "")),
   ("city", dget extracted_data "city" (Json.str "")),
   ("state", dget extracted_data "state" (Json.str "")),
   ("industry", dget extracted_data "industry" (Json.str "")),
   ("description", Json.str ""),
   ("url", dget extracted_data "company_url" (Json.str "")),
   ("company_domain", Json.str ""),
   ("logo_url", dget extracted_data "logo_url" (Json.str "")),
   ("company_id", Json.str "")]

/-- Lines 278-306: split the parsed object into `job_data`/`company_data`,
falling back to the flat single-object shape.  The company value is kept as
an arbitrary `Json` — only the later merge loop (lines 368-370) constrains
it, and a non-dict can survive that loop (see `mergeStepCJ`).

`none` covers every path on which CPython raises and the outer handler
returns `None, None`: a non-dict top-level value (line 279's `.get` raises
`AttributeError`), and a non-dict `job_data` that is not replaced by the
flat fallback — a truthy `int`/`bool` raises `TypeError` at line 283's
`in`; any other non-dict reaches the job merge loop (lines 341-352) where a
missing key raises on `job_data[key] = ...` and a present
`job_description_roles_resp` raises on the `job_data[key]` indexing of
line 346, so no non-dict `job_data` can reach line 383. -/
def getJC (extracted_data : Json) : Option (JObj × Json) :=
  match extracted_data with
  | Json.obj kvs =>
    if !truthy (dget kvs "job_data" (Json.obj []))
        && !truthy (dget kvs "company_data" (Json.obj [])) then
      if dcontains kvs "position_title" || dcontains kvs "company" then
        some (kvs, Json.obj (companyFromFlat kvs))
      else none
    else
      match dget kvs "job_data" (Json.obj []) with
      | Json.obj j => some (j, dget kvs "company_data" (Json.obj []))
      | _ => none
  | _ => none

/-- The default `job_description_roles_resp` object. -/
def rr_default : Json :=
  Json.obj [("roles", Json.arr []), ("responsibilities", Json.arr [])]

/-- `default_job_structure` (lines 309-338), in the source's literal order;
`created_date` defaults to today's date. -/
def default_job_structure (today : Nat) : JObj :=
  [("application_link", Json.str ""),
   ("application_posted", Json.str ""),
   ("categories", Json.arr []),
   ("city", Json.str ""),
   ("company", Json.str ""),
   ("company_url", Json.str ""),
   ("country", Json.str ""),
   ("description", Json.str ""),
   ("description_full", Json.str ""),
   ("industry", Json.str ""),
   ("job_description_roles_resp", rr_default),
   ("job_id", Json.str ""),
   ("job_type", Json.str ""),
   ("location", Json.str ""),
   ("position_title", Json.str ""),
   ("remote_in_person", Json.str ""),
   ("required_skills", Json.str ""),
   ("salary", Json.str ""),
   ("start_date", Json.str ""),
   ("state", Json.str ""),
   ("created_date", Json.str (fmtDate today)),
   ("logo_url", Json.str ""),
   ("number_of_viewed", Json.num 0),
   ("number_of_applied", Json.num 0),
   ("number_of_saved", Json.num 0)]

/-- Lines 349-352: backfill the `roles` and `responsibilities` sub-keys of
a dict-valued `job_description_roles_resp`. -/
def rrFill (o : JObj) : JObj :=
  let o1 := if dcontains o "roles" then o else dset o "roles" (Json.arr [])
  if dcontains o1 "responsibilities" then o1
  else dset o1 "responsibilities" (Json.arr [])

/-- One iteration of the job-default merge loop (lines 341-352): add a
missing key; for `job_description_roles_resp`, replace a non-dict value by
the default and backfill the two sub-keys of a dict value. -/
def mergeStepJ (job_data : JObj) (kv : String × Json) : JObj :=
  if !dcontains job_data kv.1 then dset job_data kv.1 kv.2
  else if kv.1 = "job_description_roles_resp" then
    match dget job_data kv.1 Json.null with
    | Json.obj o => dset job_data kv.1 (Json.obj (rrFill o))
    | _ => dset job_data kv.1 kv.2
  else job_data

/-- Lines 340-352: merge the job object with the defaults. -/
def mergeJobDefaults (today : Nat) (job_data : JObj) : JObj :=
  (default_job_structure today).foldl mergeStepJ job_data

/-- `default_company_structure` (lines 355-365). -/
def default_company_structure : JObj :=
  [("name", Json.str ""),
   ("city", Json.str ""),
   ("state", Json.str ""),
   ("industry", Json.str ""),
   ("description", Json.str ""),
   ("url", Json.str ""),
   ("company_domain", Json.str ""),
   ("logo_url", Json.str ""),
   ("company_id", Json.str "")]

/-- One iteration of the company-default merge loop (lines 368-370). -/
def mergeStepC (company_data : JObj) (kv : String × Json) : JObj :=
  if !dcontains company_data kv.1 then dset company_data kv.1 kv.2
  else company_data

/-- Lines 367-370: merge the company object with the defaults. -/
def mergeCompanyDefaults (company_data : JObj) : JObj :=
  default_company_structure.foldl mergeStepC company_data

/-- Python `"key" == element` against a parsed JSON list element: only a
string element with the same characters compares equal. -/
def pyStrElem (key : String) (x : Json) : Bool :=
  match x with
  | Json.str t => t = key
  | _ => false

/-- One iteration of the company-default merge loop (lines 368-370) on an
arbitrary `company_data` value, with CPython's `key not in company_data`
semantics: dict key membership, string substring test, list element
equality; `in` on any other type raises `TypeError`, and the
`company_data[key] = default` assignment raises `TypeError` on any
non-dict — both modelled as `none`.  In particular a truthy string or list
containing every required field name passes the loop unchanged. -/
def mergeStepCJ (acc : Option Json) (kv : String × Json) : Option Json :=
  match acc with
  | none => none
  | some (Json.obj kvs) =>
      if !dcontains kvs kv.1 then some (Json.obj (dset kvs kv.1 kv.2))
      else some (Json.obj kvs)
  | some (Json.str s) =>
      if !hasSub kv.1.toList s.toList then none else some (Json.str s)
  | some (Json.arr xs) =>
      if !xs.any (pyStrElem kv.1) then none else some (Json.arr xs)
  | some _ => none

/-- Lines 367-370 on an arbitrary company value: the whole merge loop, with
an exception (`none`) aborting the extraction. -/
def mergeCompanyDefaultsJ (company_data : Json) : Option Json :=
  default_company_structure.foldl mergeStepCJ (some company_data)

/-- Python `calculated_date != llm_date` where `calculated_date` is a
string: strings compare by value, any non-string compares unequal. -/
def neqStr (llm_date : Json) (calculated : String) : Bool :=
  match llm_date with
  | Json.str t => !(calculated == t)
  | _ => true

/-- Lines 372-377: relative-date resolution of `application_posted`; `none`
models an exception propagating out of `parse_relative_date`. -/
def temporalStage (today : Nat) (raw_text : String) (job_data : JObj) :
    Option JObj :=
  if truthy (Json.obj job_data) && dcontains job_data "application_posted" then
    match parse_relative_date today raw_text
        (dget job_data "application_posted" (Json.str "")) with
    | none => none
    | some calculated_date =>
        if truthy (Json.str calculated_date)
            && neqStr (dget job_data "application_posted" (Json.str ""))
                 calculated_date then
          some (dset job_data "application_posted" (Json.str calculated_date))
        else some job_data
  else some job_data

/-- `extract_job_data_with_llm` from the backend's message content onward
(lines 222-383): JSON repair and parse, record-shape resolution, default
backfill for both records, temporal resolution, and the unconditional
`created_date` overwrite (lines 379-381). -/
def extract_job_data_with_llm (today : Nat) (raw_text response : String) :
    Option (JObj × Json) :=
  match repairParse response with
  | none => none
  | some extracted_data =>
    match getJC extracted_data with
    | none => none
    | some (jd, cd) =>
      match mergeCompanyDefaultsJ cd with
      | none => none
      | some company_data =>
        match temporalStage today raw_text (mergeJobDefaults today jd) with
        | none => none
        | some job_data2 =>
            some (dset job_data2 "created_date" (Json.str (fmtDate today)),
                  company_data)

/- ## `utils/db_connection.py` -/

/-- `required_fields` of `validate_json_structure` (lines 64-71). -/
def job_required_fields : List String :=
  ["application_link", "application_posted", "categories", "city",
   "company", "company_url", "country", "description", "description_full",
   "industry", "job_description_roles_resp", "job_id", "job_type",
   "location", "position_title", "remote_in_person", "required_skills",
   "salary", "start_date", "state", "created_date", "logo_url",
   "number_of_viewed", "number_of_applied", "number_of_saved"]

/-- `required_fields` of `validate_company_structure` (lines 87-90). -/
def company_required_fields : List String :=
  ["name", "city", "state", "industry", "description",
   "url", "company_domain", "logo_url", "company_id"]

/-- `validate_json_structure(data)` (lines 54-74): presence-only check of
the 25 job fields, returning `(is_valid, missing_fields)`. -/
def validate_json_structure (data : JObj) : Bool × List String :=
  let missing_fields := job_required_fields.filter (fun f => !dcontains data f)
  (missing_fields.length = 0, missing_fields)

/-- `validate_company_structure(data)` (lines 77-93). -/
def validate_company_structure (data : JObj) : Bool × List String :=
  let missing_fields := company_required_fields.filter (fun f => !dcontains data f)
  (missing_fields.length = 0, missing_fields)

/-- `", ".join(fields)`. -/
def joinComma : List String → String
  | [] => ""
  | [f] => f
  | f :: rest => f ++ ", " ++ joinComma rest

/-- Exceptions escaping the persistence layer. -/
inductive DbErr where
  | valueError (msg : String) : DbErr
  | connectionFailure : DbErr
  | operationFailure : DbErr
  | unexpected : DbErr

/-- The external document store, as the pipeline can observe it in one
insert call: whether the connection (plus ping) succeeds, whether
`insert_one` returns without raising, the generated identifier it reports,
and whether `find_one` can read the document back. -/
structure Store where
  connect_ok : Bool
  write_ok : Bool
  inserted_id : Option String
  readback_ok : Bool

/-- The mutation `insert_job_data` performs on its argument before any store
interaction (lines 115-120): backfill a falsy `created_date` with the
current date, then stamp `inserted_at`. -/
def jobMutate (now_date now_iso : String) (job_data : JObj) : JObj :=
  dset (if !truthy (dget job_data "created_date" Json.null) then
          dset job_data "created_date" (Json.str now_date)
        else job_data)
    "inserted_at" (Json.str now_iso)

/-- `insert_job_data(job_data)` (lines 96-160) with `datetime.now()`
supplied as `now_date` (date form) and `now_iso` (isoformat).

Returns the call's outcome together with the final state of the caller's
`job_data` dict — the function mutates its argument before any store
interaction. -/
def insert_job_data (now_date now_iso : String) (st : Store) (job_data : JObj) :
    Except DbErr String × JObj :=
  if !(validate_json_structure job_data).1 then
    (Except.error (DbErr.valueError
        ("Invalid JSON structure. Missing fields: "
          ++ joinComma (validate_json_structure job_data).2)), job_data)
  else if !st.connect_ok then
    (Except.error DbErr.connectionFailure, jobMutate now_date now_iso job_data)
  else if !st.write_ok then
    (Except.error DbErr.operationFailure, jobMutate now_date now_iso job_data)
  else
    match st.inserted_id with
    | some id =>
        if st.readback_ok then (Except.ok id, jobMutate now_date now_iso job_data)
        else (Except.error DbErr.unexpected, jobMutate now_date now_iso job_data)
    | none => (Except.error DbErr.unexpected, jobMutate now_date now_iso job_data)

/-- `insert_company_data(company_data)` (lines 163-217). -/
def insert_company_data (now_iso : String) (st : Store) (company_data : JObj) :
    Except DbErr String × JObj :=
  if !(validate_company_structure company_data).1 then
    (Except.error (DbErr.valueError
        ("Invalid company JSON structure. Missing fields: "
          ++ joinComma (validate_company_structure company_data).2)), company_data)
  else if !st.connect_ok then
    (Except.error DbErr.connectionFailure,
     dset company_data "inserted_at" (Json.str now_iso))
  else if !st.write_ok then
    (Except.error DbErr.operationFailure,
     dset company_data "inserted_at" (Json.str now_iso))
  else
    match st.inserted_id with
    | some id =>
        if st.readback_ok then
          (Except.ok id, dset company_data "inserted_at" (Json.str now_iso))
        else (Except.error DbErr.unexpected,
              dset company_data "inserted_at" (Json.str now_iso))
    | none => (Except.error DbErr.unexpected,
               dset company_data "inserted_at" (Json.str now_iso))

/-- The invariant every record leaving the job merge satisfies for
`job_description_roles_resp`: it is an object carrying both sub-keys. -/
def rrP (j : JObj) : Prop :=
  ∃ o, dlookup j "job_description_roles_resp" = some (Json.obj o)
    ∧ dcontains o "roles" = true ∧ dcontains o "responsibilities" = true

/-- The first ten entries of `default_job_structure`. -/
def djs_pre : JObj :=
  [("application_link", Json.str ""),
   ("application_posted", Json.str ""),
   ("categories", Json.arr []),
   ("city", Json.str ""),
   ("company", Json.str ""),
   ("company_url", Json.str ""),
   ("country", Json.str ""),
   ("description", Json.str ""),
   ("description_full", Json.str ""),
   ("industry", Json.str "")]

/-- The entries of `default_job_structure` after `job_description_roles_resp`. -/
def djs_post (today : Nat) : JObj :=
  [("job_id", Json.str ""),
   ("job_type", Json.str ""),
   ("location", Json.str ""),
   ("position_title", Json.str ""),
   ("remote_in_person", Json.str ""),
   ("required_skills", Json.str ""),
   ("salary", Json.str ""),
   ("start_date", Json.str ""),
   ("state", Json.str ""),
   ("created_date", Json.str (fmtDate today)),
   ("logo_url", Json.str ""),
   ("number_of_viewed", Json.num 0),
   ("number_of_applied", Json.num 0),
   ("number_of_saved", Json.num 0)]

/- ## Concrete inputs used by the claim theorems -/

/-- The processing date used in the concrete examples: 2025-06-15. -/
def today0 : Nat := daysFromCivil 2025 6 15

/-- A raw posting text with no relative-date expression. -/
def raw_plain : String := "We are hiring a software engineer in Bengaluru."

/-- Backend output carrying a stale `created_date`. -/
def respC1 : String :=
  "\x7b\"job_data\": \x7b\"position_title\": \"Engineer\", \"created_date\": \"2023-01-01\"\x7d, \"company_data\": \x7b\x7d\x7d"

/-- Backend output whose `job_description_roles_resp.roles` is a bare string. -/
def respC2 : String :=
  "\x7b\"job_data\": \x7b\"job_description_roles_resp\": \x7b\"roles\": \"r\"\x7d\x7d, \"company_data\": \x7b\x7d\x7d"

/-- Backend output with the JSON object wrapped in prose (spec §8 example). -/
def respC5 : String :=
  "Here is the data: \x7b\"position_title\": \"Engineer\"\x7d Thanks!"

/-- Backend output that is not recoverable JSON at all. -/
def respBad : String := "no json here at all"

/-- Backend output with a company url but no `company_domain` key. -/
def respC6 : String :=
  "\x7b\"job_data\": \x7b\"position_title\": \"X\"\x7d, \"company_data\": \x7b\"url\": \"https://www.infosys.com/careers\"\x7d\x7d"

/-- Backend output with no `company_data` key at all. -/
def respC9 : String := "\x7b\"job_data\": \x7b\"position_title\": \"X\"\x7d\x7d"

/-- Backend output whose `company_data` is a truthy string containing all
9 company field names as substrings: it passes every `key not in` check of
lines 368-370 with no assignment and survives extraction as a bare string. -/
def respSurv : String :=
  "\x7b\"job_data\": \x7b\"position_title\": \"X\"\x7d, \"company_data\": \"name city state industry description url company_domain logo_url company_id\"\x7d"

/-- The record pair extracted from `respC1`. -/
def pairC1 : JObj × Json :=
  (extract_job_data_with_llm today0 raw_plain respC1).getD ([], Json.null)

/-- The record pair extracted from `respC2`. -/
def pairC2 : JObj × Json :=
  (extract_job_data_with_llm today0 raw_plain respC2).getD ([], Json.null)

/-- The record pair extracted from `respC9`. -/
def pairC9 : JObj × Json :=
  (extract_job_data_with_llm today0 raw_plain respC9).getD ([], Json.null)

/-- The parsed value recovered from `respC5`. -/
def valC5 : Json := Json.obj [("position_title", Json.str "Engineer")]

/-- A store whose connection, write, and read-back all succeed. -/
def st_ok : Store := ⟨true, true, some "686f0a1b2c3d4e5f60718293", true⟩

/-- A store whose connection fails. -/
def st_down : Store := ⟨false, true, some "686f0a1b2c3d4e5f60718293", true⟩

/-- A complete job record (the default structure is schema-complete). -/
def jd_full : JObj := default_job_structure today0

/-- A complete company record. -/
def cd_full : JObj := default_company_structure

/-- A complete job record whose `created_date` is empty. -/
def jd_cd_empty : JObj :=
  dset (default_job_structure today0) "created_date" (Json.str "")

/-- A ≥50-character text containing the marker "lorem ipsum" but fewer than
3 job keywords and no job pattern. -/
def s8 : String :=
  "lorem ipsum dolor sit amet consectetur adipiscing elit sed do eiusmod tempor"

/-- A ≥50-character text containing the marker "placeholder" together with
enough job keywords to pass the keyword gate. -/
def s8b : String :=
  "This is a placeholder job description for a software engineer position at a great company with many skills required."

/- ## Theorems -/

/- ## Dictionary lemmas -/

theorem dlookup_dset_self (r : JObj) (k : String) (v : Json) :
    dlookup (dset r k v) k = some v := by
  induction r with
  | nil => simp [dset, dlookup]
  | cons kv rest ih =>
    obtain ⟨k0, v0⟩ := kv
    by_cases h : k0 = k
    · subst h; simp [dset, dlookup]
    · simp [dset, dlookup, h, ih]

theorem dlookup_dset_ne (r : JObj) (k k' : String) (v : Json) (h : k' ≠ k) :
    dlookup (dset r k' v) k = dlookup r k := by
  induction r with
  | nil => simp [dset, dlookup, h]
  | cons kv rest ih =>
    obtain ⟨k0, v0⟩ := kv
    by_cases h0 : k0 = k'
    · subst h0; simp [dset, dlookup, h]
    · simp [dset, dlookup, h0, ih]

theorem dcontains_dset_self (r : JObj) (k : String) (v : Json) :
    dcontains (dset r k v) k = true := by
  simp [dcontains, dlookup_dset_self]

theorem dcontains_dset_mono (r : JObj) (k k' : String) (v : Json)
    (h : dcontains r k = true) : dcontains (dset r k' v) k = true := by
  by_cases he : k' = k
  · subst he; exact dcontains_dset_self r k' v
  · simpa [dcontains, dlookup_dset_ne r k k' v he] using h

theorem dcontains_dset_ne (r : JObj) (k k' : String) (v : Json) (h : k' ≠ k) :
    dcontains (dset r k' v) k = dcontains r k := by
  simp [dcontains, dlookup_dset_ne r k k' v h]

theorem dget_of_dlookup (r : JObj) (k : String) (d v : Json)
    (h : dlookup r k = some v) : dget r k d = v := by
  simp [dget, h]

theorem dcontains_of_dlookup (r : JObj) (k : String) (v : Json)
    (h : dlookup r k = some v) : dcontains r k = true := by
  simp [dcontains, h]

/- ## Merge-loop lemmas -/

theorem rrFill_contains_roles (o : JObj) :
    dcontains (rrFill o) "roles" = true := by
  unfold rrFill
  have h1 : dcontains (if dcontains o "roles" then o else dset o "roles" (Json.arr []))
      "roles" = true := by
    cases hr : dcontains o "roles" with
    | true => simp [hr]
    | false => simp only [hr, Bool.false_eq_true, if_false]
               exact dcontains_dset_self o "roles" (Json.arr [])
  cases hs : dcontains (if dcontains o "roles" then o else dset o "roles" (Json.arr []))
      "responsibilities" with
  | true => simpa [hs] using h1
  | false =>
    simp only [hs, Bool.false_eq_true, if_false]
    exact dcontains_dset_mono _ _ _ _ h1

theorem rrFill_contains_resp (o : JObj) :
    dcontains (rrFill o) "responsibilities" = true := by
  unfold rrFill
  cases hs : dcontains (if dcontains o "roles" then o else dset o "roles" (Json.arr []))
      "responsibilities" with
  | true => simp [hs]
  | false =>
    simp only [hs, Bool.false_eq_true, if_false]
    exact dcontains_dset_self _ _ _

/-- `mergeStepJ` either leaves the dict unchanged or assigns `kv.1`. -/
theorem mergeStepJ_shape (jd : JObj) (k0 : String) (v0 : Json) :
    mergeStepJ jd (k0, v0) = jd ∨ ∃ v, mergeStepJ jd (k0, v0) = dset jd k0 v := by
  unfold mergeStepJ
  cases h : dcontains jd k0 with
  | false => exact Or.inr ⟨v0, by simp [h]⟩
  | true =>
    by_cases hk : k0 = "job_description_roles_resp"
    · subst hk
      simp only [h, Bool.not_true, Bool.false_eq_true, if_false, if_pos rfl]
      cases dget jd "job_description_roles_resp" Json.null <;> exact Or.inr ⟨_, rfl⟩
    · simp [h, hk]

theorem mergeStepJ_contains_self (jd : JObj) (k0 : String) (v0 : Json) :
    dcontains (mergeStepJ jd (k0, v0)) k0 = true := by
  unfold mergeStepJ
  cases h : dcontains jd k0 with
  | false => simp only [h, Bool.not_false, if_true]
             exact dcontains_dset_self jd k0 v0
  | true =>
    by_cases hk : k0 = "job_description_roles_resp"
    · subst hk
      simp only [h, Bool.not_true, Bool.false_eq_true, if_false, if_pos rfl]
      cases dget jd "job_description_roles_resp" Json.null
        <;> exact dcontains_dset_self jd _ _
    · simp [h, hk]

theorem mergeStepJ_contains_mono (jd : JObj) (kv : String × Json) (k : String)
    (h : dcontains jd k = true) : dcontains (mergeStepJ jd kv) k = true := by
  obtain ⟨k0, v0⟩ := kv
  rcases mergeStepJ_shape jd k0 v0 with hs | ⟨v, hs⟩
  · rw [hs]; exact h
  · rw [hs]; exact dcontains_dset_mono jd k k0 v h

theorem mergeStepJ_dlookup_ne (jd : JObj) (kv : String × Json) (k : String)
    (h : kv.1 ≠ k) : dlookup (mergeStepJ jd kv) k = dlookup jd k := by
  obtain ⟨k0, v0⟩ := kv
  rcases mergeStepJ_shape jd k0 v0 with hs | ⟨v, hs⟩
  · rw [hs]
  · rw [hs]; exact dlookup_dset_ne jd k k0 v h

theorem foldl_mergeStepJ_mono (l : JObj) (jd : JObj) (k : String)
    (h : dcontains jd k = true) :
    dcontains (l.foldl mergeStepJ jd) k = true := by
  induction l generalizing jd with
  | nil => simpa using h
  | cons kv rest ih =>
    simp only [List.foldl_cons]
    exact ih (mergeStepJ jd kv) (mergeStepJ_contains_mono jd kv k h)

theorem foldl_mergeStepJ_contains (l : JObj) (jd : JObj) (k : String)
    (h : k ∈ l.map Prod.fst) :
    dcontains (l.foldl mergeStepJ jd) k = true := by
  induction l generalizing jd with
  | nil => simp at h
  | cons kv rest ih =>
    obtain ⟨k0, v0⟩ := kv
    simp only [List.map_cons, List.mem_cons] at h
    simp only [List.foldl_cons]
    rcases h with h | h
    · subst h
      exact foldl_mergeStepJ_mono rest (mergeStepJ jd (k, v0)) k
        (mergeStepJ_contains_self jd k v0)
    · exact ih (mergeStepJ jd (k0, v0)) h

theorem mergeJobDefaults_contains (today : Nat) (jd : JObj) (k : String)
    (h : k ∈ (default_job_structure today).map Prod.fst) :
    dcontains (mergeJobDefaults today jd) k = true :=
  foldl_mergeStepJ_contains (default_job_structure today) jd k h

theorem rrP_mergeStepJ_preserve (jd : JObj) (kv : String × Json)
    (h : rrP jd) : rrP (mergeStepJ jd kv) := by
  obtain ⟨k0, v0⟩ := kv
  obtain ⟨o, hlk, hr, hs⟩ := h
  by_cases hk : k0 = "job_description_roles_resp"
  · subst hk
    have hc : dcontains jd "job_description_roles_resp" = true :=
      dcontains_of_dlookup _ _ _ hlk
    have hget : dget jd "job_description_roles_resp" Json.null = Json.obj o :=
      dget_of_dlookup _ _ _ _ hlk
    unfold mergeStepJ
    simp only [hc, Bool.not_true, Bool.false_eq_true, if_false, if_pos rfl, hget]
    exact ⟨rrFill o, dlookup_dset_self jd _ _,
      rrFill_contains_roles o, rrFill_contains_resp o⟩
  · rcases mergeStepJ_shape jd k0 v0 with hsh | ⟨v, hsh⟩
    · rw [hsh]; exact ⟨o, hlk, hr, hs⟩
    · rw [hsh]
      exact ⟨o, by rw [dlookup_dset_ne jd _ k0 v hk]; exact hlk, hr, hs⟩

theorem rrP_mergeStepJ_establish (jd : JObj) :
    rrP (mergeStepJ jd ("job_description_roles_resp", rr_default)) := by
  unfold mergeStepJ
  cases hc : dcontains jd "job_description_roles_resp" with
  | false =>
    simp only [hc, Bool.not_false, if_true]
    exact ⟨[("roles", Json.arr []), ("responsibilities", Json.arr [])],
      by simpa [rr_default] using
        dlookup_dset_self jd "job_description_roles_resp" rr_default,
      by simp [dcontains, dlookup], by simp [dcontains, dlookup]⟩
  | true =>
    simp only [hc, Bool.not_true, Bool.false_eq_true, if_false, if_pos rfl]
    cases hget : dget jd "job_description_roles_resp" Json.null with
    | obj o =>
      exact ⟨rrFill o, dlookup_dset_self jd _ _,
        rrFill_contains_roles o, rrFill_contains_resp o⟩
    | null =>
      exact ⟨[("roles", Json.arr []), ("responsibilities", Json.arr [])],
        by simpa [rr_default] using
          dlookup_dset_self jd "job_description_roles_resp" rr_default,
        by simp [dcontains, dlookup], by simp [dcontains, dlookup]⟩
    | bool b =>
      exact ⟨[("roles", Json.arr []), ("responsibilities", Json.arr [])],
        by simpa [rr_default] using
          dlookup_dset_self jd "job_description_roles_resp" rr_default,
        by simp [dcontains, dlookup], by simp [dcontains, dlookup]⟩
    | num n =>
      exact ⟨[("roles", Json.arr []), ("responsibilities", Json.arr [])],
        by simpa [rr_default] using
          dlookup_dset_self jd "job_description_roles_resp" rr_default,
        by simp [dcontains, dlookup], by simp [dcontains, dlookup]⟩
    | numF l =>
      exact ⟨[("roles", Json.arr []), ("responsibilities", Json.arr [])],
        by simpa [rr_default] using
          dlookup_dset_self jd "job_description_roles_resp" rr_default,
        by simp [dcontains, dlookup], by simp [dcontains, dlookup]⟩
    | str s =>
      exact ⟨[("roles", Json.arr []), ("responsibilities", Json.arr [])],
        by simpa [rr_default] using
          dlookup_dset_self jd "job_description_roles_resp" rr_default,
        by simp [dcontains, dlookup], by simp [dcontains, dlookup]⟩
    | arr xs =>
      exact ⟨[("roles", Json.arr []), ("responsibilities", Json.arr [])],
        by simpa [rr_default] using
          dlookup_dset_self jd "job_description_roles_resp" rr_default,
        by simp [dcontains, dlookup], by simp [dcontains, dlookup]⟩

theorem rrP_foldl (l : JObj) (jd : JObj) (h : rrP jd) :
    rrP (l.foldl mergeStepJ jd) := by
  induction l generalizing jd with
  | nil => simpa using h
  | cons kv rest ih =>
    simp only [List.foldl_cons]
    exact ih (mergeStepJ jd kv) (rrP_mergeStepJ_preserve jd kv h)

theorem rrP_mergeJobDefaults (today : Nat) (jd : JObj) :
    rrP (mergeJobDefaults today jd) := by
  have hsplit : default_job_structure today
      = djs_pre ++ ("job_description_roles_resp", rr_default) :: djs_post today := rfl
  unfold mergeJobDefaults
  rw [hsplit, List.foldl_append, List.foldl_cons]
  exact rrP_foldl _ _ (rrP_mergeStepJ_establish _)

theorem mergeStepC_shape (cd : JObj) (k0 : String) (v0 : Json) :
    mergeStepC cd (k0, v0) = cd ∨ ∃ v, mergeStepC cd (k0, v0) = dset cd k0 v := by
  unfold mergeStepC
  cases h : dcontains cd k0 with
  | false => exact Or.inr ⟨v0, by simp [h]⟩
  | true => simp [h]

theorem mergeStepC_contains_self (cd : JObj) (k0 : String) (v0 : Json) :
    dcontains (mergeStepC cd (k0, v0)) k0 = true := by
  unfold mergeStepC
  cases h : dcontains cd k0 with
  | false => simp only [h, Bool.not_false, if_true]
             exact dcontains_dset_self cd k0 v0
  | true => simp [h]

theorem mergeStepC_contains_mono (cd : JObj) (kv : String × Json) (k : String)
    (h : dcontains cd k = true) : dcontains (mergeStepC cd kv) k = true := by
  obtain ⟨k0, v0⟩ := kv
  rcases mergeStepC_shape cd k0 v0 with hs | ⟨v, hs⟩
  · rw [hs]; exact h
  · rw [hs]; exact dcontains_dset_mono cd k k0 v h

/-- A binding already present is never changed by the company merge step. -/
theorem mergeStepC_dlookup_preserve (cd : JObj) (kv : String × Json) (k : String)
    (v : Json) (h : dlookup cd k = some v) :
    dlookup (mergeStepC cd kv) k = some v := by
  obtain ⟨k0, v0⟩ := kv
  by_cases hk : k0 = k
  · subst hk
    unfold mergeStepC
    have hc : dcontains cd k0 = true := dcontains_of_dlookup _ _ _ h
    simp only [hc, Bool.not_true, Bool.false_eq_true, if_false]
    exact h
  · rcases mergeStepC_shape cd k0 v0 with hs | ⟨v', hs⟩
    · rw [hs]; exact h
    · rw [hs, dlookup_dset_ne cd k k0 v' hk]; exact h

theorem mergeStepC_missing (cd : JObj) (k0 : String) (v0 : Json)
    (h : dcontains cd k0 = false) :
    mergeStepC cd (k0, v0) = dset cd k0 v0 := by
  unfold mergeStepC
  simp [h]

theorem foldl_mergeStepC_mono (l : JObj) (cd : JObj) (k : String)
    (h : dcontains cd k = true) :
    dcontains (l.foldl mergeStepC cd) k = true := by
  induction l generalizing cd with
  | nil => simpa using h
  | cons kv rest ih =>
    simp only [List.foldl_cons]
    exact ih (mergeStepC cd kv) (mergeStepC_contains_mono cd kv k h)

theorem foldl_mergeStepC_contains (l : JObj) (cd : JObj) (k : String)
    (h : k ∈ l.map Prod.fst) :
    dcontains (l.foldl mergeStepC cd) k = true := by
  induction l generalizing cd with
  | nil => simp at h
  | cons kv rest ih =>
    obtain ⟨k0, v0⟩ := kv
    simp only [List.map_cons, List.mem_cons] at h
    simp only [List.foldl_cons]
    rcases h with h | h
    · subst h
      exact foldl_mergeStepC_mono rest (mergeStepC cd (k, v0)) k
        (mergeStepC_contains_self cd k v0)
    · exact ih (mergeStepC cd (k0, v0)) h

theorem mergeCompanyDefaults_contains (cd : JObj) (k : String)
    (h : k ∈ default_company_structure.map Prod.fst) :
    dcontains (mergeCompanyDefaults cd) k = true :=
  foldl_mergeStepC_contains default_company_structure cd k h

theorem foldl_mergeStepC_dlookup_preserve (l : JObj) (cd : JObj) (k : String)
    (v : Json) (h : dlookup cd k = some v) :
    dlookup (l.foldl mergeStepC cd) k = some v := by
  induction l generalizing cd with
  | nil => simpa using h
  | cons kv rest ih =>
    simp only [List.foldl_cons]
    exact ih (mergeStepC cd kv) (mergeStepC_dlookup_preserve cd kv k v h)

/-- The company merge step cannot create a key other than the one it
processes. -/
theorem mergeStepC_not_contains (cd : JObj) (kv : String × Json) (k : String)
    (hk : kv.1 ≠ k) (h : dcontains cd k = false) :
    dcontains (mergeStepC cd kv) k = false := by
  obtain ⟨k0, v0⟩ := kv
  rcases mergeStepC_shape cd k0 v0 with hs | ⟨v, hs⟩
  · rw [hs]; exact h
  · rw [hs, dcontains_dset_ne cd k k0 v hk]; exact h

theorem foldl_mergeStepC_not_contains (l : JObj) (cd : JObj) (k : String)
    (hk : ∀ kv ∈ l, kv.1 ≠ k) (h : dcontains cd k = false) :
    dcontains (l.foldl mergeStepC cd) k = false := by
  induction l generalizing cd with
  | nil => simpa using h
  | cons kv rest ih =>
    simp only [List.foldl_cons]
    exact ih (mergeStepC cd kv)
      (fun kv' hm => hk kv' (List.mem_cons_of_mem kv hm))
      (mergeStepC_not_contains cd kv k (hk kv (List.mem_cons_self kv rest)) h)

/- ## Temporal-stage and extraction-shape lemmas -/

theorem temporalStage_shape (today : Nat) (raw_text : String) (jd jd2 : JObj)
    (h : temporalStage today raw_text jd = some jd2) :
    jd2 = jd ∨ ∃ v, jd2 = dset jd "application_posted" v := by
  unfold temporalStage at h
  cases hc : (truthy (Json.obj jd) && dcontains jd "application_posted") with
  | false =>
    simp only [hc, Bool.false_eq_true, if_false, Option.some.injEq] at h
    exact Or.inl h.symm
  | true =>
    simp only [hc, if_true] at h
    cases hp : parse_relative_date today raw_text
        (dget jd "application_posted" (Json.str "")) with
    | none => rw [hp] at h; cases h
    | some calculated_date =>
      rw [hp] at h
      cases hq : (truthy (Json.str calculated_date)
          && neqStr (dget jd "application_posted" (Json.str "")) calculated_date) with
      | true =>
        simp only [hq, if_true, Option.some.injEq] at h
        exact Or.inr ⟨Json.str calculated_date, h.symm⟩
      | false =>
        simp only [hq, Bool.false_eq_true, if_false, Option.some.injEq] at h
        exact Or.inl h.symm

theorem temporalStage_contains (today : Nat) (raw_text : String) (jd jd2 : JObj)
    (k : String) (h : temporalStage today raw_text jd = some jd2)
    (hc : dcontains jd k = true) : dcontains jd2 k = true := by
  rcases temporalStage_shape today raw_text jd jd2 h with hs | ⟨v, hs⟩
  · rw [hs]; exact hc
  · rw [hs]; exact dcontains_dset_mono jd k _ v hc

theorem temporalStage_dlookup_ne (today : Nat) (raw_text : String) (jd jd2 : JObj)
    (k : String) (h : temporalStage today raw_text jd = some jd2)
    (hk : "application_posted" ≠ k) : dlookup jd2 k = dlookup jd k := by
  rcases temporalStage_shape today raw_text jd jd2 h with hs | ⟨v, hs⟩
  · rw [hs]
  · rw [hs]; exact dlookup_dset_ne jd k _ v hk

/-- Basic lemmas about `mergeStepCJ`/`mergeCompanyDefaultsJ`: a raised
exception propagates; a dict input mirrors the plain dict merge; a string or
list input is never modified (it either survives unchanged or raises). -/
theorem foldl_mergeStepCJ_none (l : JObj) :
    List.foldl mergeStepCJ none l = none := by
  induction l with
  | nil => rfl
  | cons kv rest ih => simpa using ih

theorem mergeStepCJ_obj (kvs : JObj) (kv : String × Json) :
    mergeStepCJ (some (Json.obj kvs)) kv = some (Json.obj (mergeStepC kvs kv)) := by
  unfold mergeStepCJ mergeStepC
  cases h : dcontains kvs kv.1 <;> simp [h]

theorem foldl_mergeStepCJ_obj (l : JObj) (kvs : JObj) :
    List.foldl mergeStepCJ (some (Json.obj kvs)) l
      = some (Json.obj (List.foldl mergeStepC kvs l)) := by
  induction l generalizing kvs with
  | nil => rfl
  | cons kv rest ih =>
    simp only [List.foldl_cons, mergeStepCJ_obj]
    exact ih (mergeStepC kvs kv)

theorem mergeCompanyDefaultsJ_obj (kvs : JObj) :
    mergeCompanyDefaultsJ (Json.obj kvs)
      = some (Json.obj (mergeCompanyDefaults kvs)) :=
  foldl_mergeStepCJ_obj default_company_structure kvs

theorem foldl_mergeStepCJ_str (l : JObj) (s : String) :
    List.foldl mergeStepCJ (some (Json.str s)) l = none
    ∨ List.foldl mergeStepCJ (some (Json.str s)) l = some (Json.str s) := by
  induction l with
  | nil => exact Or.inr rfl
  | cons kv rest ih =>
    simp only [List.foldl_cons]
    cases hc : hasSub kv.1.toList s.toList with
    | false =>
      have hstep : mergeStepCJ (some (Json.str s)) kv = none := by
        unfold mergeStepCJ
        dsimp only
        rw [hc]
        rfl
      rw [hstep]
      exact Or.inl (foldl_mergeStepCJ_none rest)
    | true =>
      have hstep : mergeStepCJ (some (Json.str s)) kv = some (Json.str s) := by
        unfold mergeStepCJ
        dsimp only
        rw [hc]
        rfl
      rw [hstep]
      exact ih

theorem foldl_mergeStepCJ_arr (l : JObj) (xs : List Json) :
    List.foldl mergeStepCJ (some (Json.arr xs)) l = none
    ∨ List.foldl mergeStepCJ (some (Json.arr xs)) l = some (Json.arr xs) := by
  induction l with
  | nil => exact Or.inr rfl
  | cons kv rest ih =>
    simp only [List.foldl_cons]
    cases hc : xs.any (pyStrElem kv.1) with
    | false =>
      have hstep : mergeStepCJ (some (Json.arr xs)) kv = none := by
        unfold mergeStepCJ
        dsimp only
        rw [hc]
        rfl
      rw [hstep]
      exact Or.inl (foldl_mergeStepCJ_none rest)
    | true =>
      have hstep : mergeStepCJ (some (Json.arr xs)) kv = some (Json.arr xs) := by
        unfold mergeStepCJ
        dsimp only
        rw [hc]
        rfl
      rw [hstep]
      exact ih

/-- Every surviving company value is a merged dict, a string that contains
every company field name as a substring, or a list carrying every field
name as a string element. -/
theorem mergeCJ_some_shape (cd v : Json)
    (h : mergeCompanyDefaultsJ cd = some v) :
    (∃ kvs, cd = Json.obj kvs ∧ v = Json.obj (mergeCompanyDefaults kvs))
    ∨ (∃ s, cd = Json.str s ∧ v = Json.str s
        ∧ hasSub ("name".toList) s.toList = true)
    ∨ (∃ xs, cd = Json.arr xs ∧ v = Json.arr xs
        ∧ xs.any (pyStrElem "name") = true) := by
  cases cd with
  | obj kvs =>
    rw [mergeCompanyDefaultsJ_obj] at h
    exact Or.inl ⟨kvs, rfl, (Option.some.injEq .. ▸ h).symm⟩
  | str s =>
    unfold mergeCompanyDefaultsJ default_company_structure at h
    rw [List.foldl_cons] at h
    cases hc : hasSub ("name".toList) s.toList with
    | false =>
      have hstep : mergeStepCJ (some (Json.str s)) ("name", Json.str "") = none := by
        unfold mergeStepCJ
        dsimp only
        rw [hc]
        rfl
      rw [hstep, foldl_mergeStepCJ_none] at h
      exact Option.noConfusion h
    | true =>
      have hstep : mergeStepCJ (some (Json.str s)) ("name", Json.str "")
          = some (Json.str s) := by
        unfold mergeStepCJ
        dsimp only
        rw [hc]
        rfl
      rw [hstep] at h
      rcases foldl_mergeStepCJ_str
          [("city", Json.str ""), ("state", Json.str ""),
           ("industry", Json.str ""), ("description", Json.str ""),
           ("url", Json.str ""), ("company_domain", Json.str ""),
           ("logo_url", Json.str ""), ("company_id", Json.str "")] s with
        hv | hv
      · rw [hv] at h; exact Option.noConfusion h
      · rw [hv] at h
        exact Or.inr (Or.inl ⟨s, rfl, (Option.some.injEq .. ▸ h).symm, hc⟩)
  | arr xs =>
    unfold mergeCompanyDefaultsJ default_company_structure at h
    rw [List.foldl_cons] at h
    cases hc : xs.any (pyStrElem "name") with
    | false =>
      have hstep : mergeStepCJ (some (Json.arr xs)) ("name", Json.str "") = none := by
        unfold mergeStepCJ
        dsimp only
        rw [hc]
        rfl
      rw [hstep, foldl_mergeStepCJ_none] at h
      exact Option.noConfusion h
    | true =>
      have hstep : mergeStepCJ (some (Json.arr xs)) ("name", Json.str "")
          = some (Json.arr xs) := by
        unfold mergeStepCJ
        dsimp only
        rw [hc]
        rfl
      rw [hstep] at h
      rcases foldl_mergeStepCJ_arr
          [("city", Json.str ""), ("state", Json.str ""),
           ("industry", Json.str ""), ("description", Json.str ""),
           ("url", Json.str ""), ("company_domain", Json.str ""),
           ("logo_url", Json.str ""), ("company_id", Json.str "")] xs with
        hv | hv
      · rw [hv] at h; exact Option.noConfusion h
      · rw [hv] at h
        exact Or.inr (Or.inr ⟨xs, rfl, (Option.some.injEq .. ▸ h).symm, hc⟩)
  | null =>
    unfold mergeCompanyDefaultsJ default_company_structure at h
    rw [List.foldl_cons, show mergeStepCJ (some Json.null) ("name", Json.str "")
      = none from rfl, foldl_mergeStepCJ_none] at h
    exact Option.noConfusion h
  | bool b =>
    unfold mergeCompanyDefaultsJ default_company_structure at h
    rw [List.foldl_cons, show mergeStepCJ (some (Json.bool b)) ("name", Json.str "")
      = none from rfl, foldl_mergeStepCJ_none] at h
    exact Option.noConfusion h
  | num n =>
    unfold mergeCompanyDefaultsJ default_company_structure at h
    rw [List.foldl_cons, show mergeStepCJ (some (Json.num n)) ("name", Json.str "")
      = none from rfl, foldl_mergeStepCJ_none] at h
    exact Option.noConfusion h
  | numF lx =>
    unfold mergeCompanyDefaultsJ default_company_structure at h
    rw [List.foldl_cons, show mergeStepCJ (some (Json.numF lx)) ("name", Json.str "")
      = none from rfl, foldl_mergeStepCJ_none] at h
    exact Option.noConfusion h

theorem dcontains_ne_nil (r : JObj) (k : String)
    (h : dcontains r k = true) : (!r.isEmpty) = true := by
  cases r with
  | nil => simp [dcontains, dlookup] at h
  | cons kv rest => simp

/-- A surviving company value is always Python-truthy: a merged dict
contains `name` (so is nonempty), a surviving string contains `"name"` as a
substring (so is nonempty), and a surviving list carries `"name"` as an
element (so is nonempty) — this is what `main`'s `if job_data and
company_data:` checks. -/
theorem mergeCJ_truthy (cd v : Json)
    (h : mergeCompanyDefaultsJ cd = some v) : truthy v = true := by
  rcases mergeCJ_some_shape cd v h with ⟨kvs, _, hv⟩ | ⟨s, _, hv, hc⟩ | ⟨xs, _, hv, hc⟩
  · subst hv
    have := mergeCompanyDefaults_contains kvs "name" (by decide)
    simpa [truthy] using dcontains_ne_nil _ _ this
  · subst hv
    cases hs : s == "" with
    | false => simp [truthy, hs]
    | true =>
      rw [show s = "" from by simpa using hs] at hc
      exact Bool.noConfusion hc
  · subst hv
    cases xs with
    | nil => exact Bool.noConfusion hc
    | cons x rest => simp [truthy]

theorem dget_of_not_contains (r : JObj) (k : String) (d : Json)
    (h : dcontains r k = false) : dget r k d = d := by
  unfold dcontains at h
  cases hl : dlookup r k with
  | none => simp [dget, hl]
  | some v => rw [hl] at h; exact Bool.noConfusion h

/-- When the parsed backend object has no `company_data` key, `getJC` hands
the company merge either the empty dict (`.get` default) or the dict
synthesized from the flat object. -/
theorem getJC_no_company_key (kvs jd : JObj) (cd : Json)
    (h : getJC (Json.obj kvs) = some (jd, cd))
    (hk : dcontains kvs "company_data" = false) :
    cd = Json.obj [] ∨ cd = Json.obj (companyFromFlat kvs) := by
  unfold getJC at h
  dsimp only at h
  rw [dget_of_not_contains kvs "company_data" (Json.obj []) hk] at h
  cases hcnd : (!truthy (dget kvs "job_data" (Json.obj []))
      && !truthy (Json.obj [])) with
  | true =>
    rw [hcnd] at h
    simp only [if_true] at h
    cases hflat : (dcontains kvs "position_title" || dcontains kvs "company") with
    | true =>
      rw [hflat] at h
      simp only [if_true, Option.some.injEq, Prod.mk.injEq] at h
      exact Or.inr h.2.symm
    | false =>
      rw [hflat] at h
      simp only [Bool.false_eq_true, if_false] at h
      exact Option.noConfusion h
  | false =>
    rw [hcnd] at h
    simp only [Bool.false_eq_true, if_false] at h
    cases hjd : dget kvs "job_data" (Json.obj []) with
    | obj o =>
      rw [hjd] at h
      simp only [Option.some.injEq, Prod.mk.injEq] at h
      exact Or.inl h.2.symm
    | null => rw [hjd] at h; exact Option.noConfusion h
    | bool b => rw [hjd] at h; exact Option.noConfusion h
    | num n => rw [hjd] at h; exact Option.noConfusion h
    | numF lx => rw [hjd] at h; exact Option.noConfusion h
    | str s => rw [hjd] at h; exact Option.noConfusion h
    | arr ys => rw [hjd] at h; exact Option.noConfusion h

/-- Every successful extraction factors through the five stages. -/
theorem extract_success_shape (today : Nat) (raw_text response : String)
    (j : JObj) (c : Json)
    (h : extract_job_data_with_llm today raw_text response = some (j, c)) :
    ∃ ed jd cd comp jd2, repairParse response = some ed
      ∧ getJC ed = some (jd, cd)
      ∧ mergeCompanyDefaultsJ cd = some comp
      ∧ temporalStage today raw_text (mergeJobDefaults today jd) = some jd2
      ∧ j = dset jd2 "created_date" (Json.str (fmtDate today))
      ∧ c = comp := by
  unfold extract_job_data_with_llm at h
  cases h1 : repairParse response with
  | none => rw [h1] at h; exact Option.noConfusion h
  | some ed =>
    rw [h1] at h
    dsimp only at h
    cases h2 : getJC ed with
    | none => rw [h2] at h; exact Option.noConfusion h
    | some p =>
      obtain ⟨jd, cd⟩ := p
      rw [h2] at h
      dsimp only at h
      cases h25 : mergeCompanyDefaultsJ cd with
      | none => rw [h25] at h; exact Option.noConfusion h
      | some comp =>
        rw [h25] at h
        dsimp only at h
        cases h3 : temporalStage today raw_text (mergeJobDefaults today jd) with
        | none => rw [h3] at h; exact Option.noConfusion h
        | some jd2 =>
          rw [h3] at h
          dsimp only at h
          rw [Option.some.injEq, Prod.mk.injEq] at h
          obtain ⟨hj, hcc⟩ := h
          exact ⟨ed, jd, cd, comp, jd2, rfl, h2, h25, h3, hj.symm, hcc.symm⟩

/- ## Claim theorems -/

/-- C1: for every extraction call that returns a job record, the record's
`created_date` equals the processing date (`fmtDate today`), unconditionally
overwriting any backend-emitted value (`app.py` lines 379-381). -/
theorem C1_created_date_is_processing_date (today : Nat)
    (raw_text response : String) (j : JObj) (c : Json)
    (h : extract_job_data_with_llm today raw_text response = some (j, c)) :
    dget j "created_date" Json.null = Json.str (fmtDate today) := by
  obtain ⟨ed, jd, cd, comp, jd2, h1, h2, h25, h3, hj, hc⟩ :=
    extract_success_shape today raw_text response j c h
  rw [hj]
  exact dget_of_dlookup _ _ _ _ (dlookup_dset_self jd2 _ _)

/-- C1 witness: the backend emitted `created_date = "2023-01-01"` in
`respC1`, and the returned record carries today's date instead. -/
theorem C1_witness :
    dget pairC1.1 "created_date" Json.null = Json.str "2025-06-15" :=
  C1_created_date_is_processing_date today0 raw_plain respC1
    pairC1.1 pairC1.2 (by rfl)

/-- C2 (amended): every successful extraction returns a job record carrying
all 25 schema fields (missing keys backfilled with their defaults, counters
defaulting to the integer 0), with `job_description_roles_resp` always an
object in which both the `roles` and `responsibilities` keys are present
(backfilled with empty sequences when absent; a non-object value is replaced
by the default object wholesale); and the company result carries all 9
schema fields whenever it is a dict — which covers the nested, missing-key,
and flat-object cases.  Both presence checks are weaker than the original
claim: a backend-supplied non-sequence value under `roles` or
`responsibilities` is kept as-is, and a truthy non-dict `company_data`
(a string or list containing all 9 field names) survives the `key not in`
checks of lines 368-370 unchanged and is returned as a bare non-record —
both exhibited in `C2_counterexample`. -/
theorem C2_schema_completeness_amended (today : Nat)
    (raw_text response : String) (j : JObj) (c : Json)
    (h : extract_job_data_with_llm today raw_text response = some (j, c)) :
    (∀ k, k ∈ (default_job_structure today).map Prod.fst → dcontains j k = true)
    ∧ (∀ kvs, c = Json.obj kvs →
        ∀ k, k ∈ default_company_structure.map Prod.fst → dcontains kvs k = true)
    ∧ rrP j := by
  obtain ⟨ed, jd, cd, comp, jd2, h1, h2, h25, h3, hj, hc⟩ :=
    extract_success_shape today raw_text response j c h
  subst hj
  subst hc
  refine ⟨?_, ?_, ?_⟩
  · intro k hk
    exact dcontains_dset_mono _ _ _ _
      (temporalStage_contains today raw_text _ jd2 k h3
        (mergeJobDefaults_contains today jd k hk))
  · intro kvs hkvs k hk
    rcases mergeCJ_some_shape cd c h25 with
      ⟨kvs0, _, hv⟩ | ⟨s, _, hv, _⟩ | ⟨xs, _, hv, _⟩
    · rw [hv] at hkvs
      cases hkvs
      exact mergeCompanyDefaults_contains kvs0 k hk
    · rw [hv] at hkvs
      exact Json.noConfusion hkvs
    · rw [hv] at hkvs
      exact Json.noConfusion hkvs
  · obtain ⟨o, hlk, hro, hso⟩ := rrP_mergeJobDefaults today jd
    have hlk2 : dlookup jd2 "job_description_roles_resp" = some (Json.obj o) := by
      rw [temporalStage_dlookup_ne today raw_text _ jd2 _ h3 (by decide)]
      exact hlk
    refine ⟨o, ?_, hro, hso⟩
    rw [dlookup_dset_ne jd2 "job_description_roles_resp" "created_date" _ (by decide)]
    exact hlk2

/-- C2 counterexample: on `respC2` the extraction succeeds yet the value
under `roles` in the returned `job_description_roles_resp` object is the
bare string `"r"`, not a sequence; and on `respSurv` the extraction succeeds
yet the company result is not a record at all but the backend's bare string
(so it contains none of the 9 fields) — both parts of the original claim
fail. -/
theorem C2_counterexample :
    (extract_job_data_with_llm today0 raw_plain respC2).map
        (fun p =>
          (isArr (dget (asObj (dget p.1 "job_description_roles_resp" Json.null))
              "roles" Json.null),
           asStr (dget (asObj (dget p.1 "job_description_roles_resp" Json.null))
              "roles" Json.null)))
      = some (false, "r")
    ∧ (extract_job_data_with_llm today0 raw_plain respSurv).map
        (fun p => (isObj p.2, asStr p.2))
      = some (false,
          "name city state industry description url company_domain logo_url company_id") := by
  exact ⟨by rfl, by rfl⟩

/-- C2 witness: the amended theorem applied to `respC2` (whose `job_data`
omits the counters and whose `company_data` is a dict); the counter default
is the integer 0. -/
theorem C2_witness :
    dcontains pairC2.1 "position_title" = true
    ∧ dcontains (asObj pairC2.2) "company_domain" = true
    ∧ rrP pairC2.1
    ∧ dget pairC2.1 "number_of_viewed" Json.null = Json.num 0 := by
  have h := C2_schema_completeness_amended today0 raw_plain respC2
    pairC2.1 pairC2.2 (by rfl)
  exact ⟨h.1 "position_title" (by decide),
    h.2.1 (asObj pairC2.2) (by rfl) "company_domain" (by decide),
    h.2.2, by rfl⟩

/-- C3: `parse_relative_date` (`app.py` lines 135-165) tries the patterns in
the fixed order weeks, months, days, years on the lowercased text, uses only
the first kind that matches (with the leftmost match's number `n`), and
resolves to today minus `n*7`, `n*30`, `n`, or `n*365` days respectively —
for any `field_value` and regardless of later patterns.  The bound
`minDateDay + d ≤ today` is the `datetime` overflow guard (a date before
0001-01-01 raises instead). -/
theorem C3_relative_date_priority :
    (∀ today (text : String) fv n,
        searchRel ("week".toList) (lowerL text.toList) = some n →
        minDateDay + n * 7 ≤ today →
        parse_relative_date today text fv = some (fmtDate (today - n * 7)))
    ∧ (∀ today (text : String) fv n,
        searchRel ("week".toList) (lowerL text.toList) = none →
        searchRel ("month".toList) (lowerL text.toList) = some n →
        minDateDay + n * 30 ≤ today →
        parse_relative_date today text fv = some (fmtDate (today - n * 30)))
    ∧ (∀ today (text : String) fv n,
        searchRel ("week".toList) (lowerL text.toList) = none →
        searchRel ("month".toList) (lowerL text.toList) = none →
        searchRel ("day".toList) (lowerL text.toList) = some n →
        minDateDay + n ≤ today →
        parse_relative_date today text fv = some (fmtDate (today - n)))
    ∧ (∀ today (text : String) fv n,
        searchRel ("week".toList) (lowerL text.toList) = none →
        searchRel ("month".toList) (lowerL text.toList) = none →
        searchRel ("day".toList) (lowerL text.toList) = none →
        searchRel ("year".toList) (lowerL text.toList) = some n →
        minDateDay + n * 365 ≤ today →
        parse_relative_date today text fv = some (fmtDate (today - n * 365))) := by
  refine ⟨?_, ?_, ?_, ?_⟩
  · intro today text fv n hw hle
    unfold parse_relative_date
    rw [hw]
    simp [dateAgo, hle]
  · intro today text fv n hw hm hle
    unfold parse_relative_date
    rw [hw, hm]
    simp [dateAgo, hle]
  · intro today text fv n hw hm hd hle
    unfold parse_relative_date
    rw [hw, hm, hd]
    simp [dateAgo, hle]
  · intro today text fv n hw hm hd hy hle
    unfold parse_relative_date
    rw [hw, hm, hd, hy]
    simp [dateAgo, hle]

/-- C3 witness: the spec's two examples with today = 2025-06-15, plus the
priority order (a week expression beats an earlier month expression). -/
theorem C3_witness :
    parse_relative_date today0 "Posted 4 weeks ago. We are hiring."
        (Json.str "") = some "2025-05-18"
    ∧ parse_relative_date today0 "Posted 2 days ago."
        (Json.str "") = some "2025-06-13"
    ∧ parse_relative_date today0 "Posted 1 month ago, reposted 2 weeks ago."
        (Json.str "") = some "2025-06-01" := by
  refine ⟨?_, ?_, ?_⟩
  · exact C3_relative_date_priority.1 today0 _ _ 4 (by rfl) (by decide)
  · exact C3_relative_date_priority.2.2.1 today0 _ _ 2
      (by rfl) (by rfl) (by rfl) (by decide)
  · exact C3_relative_date_priority.1 today0 _ _ 2 (by rfl) (by decide)

/-- When no relative pattern matches the text, `parse_relative_date` returns
a string `field_value` unchanged — including values below the year-2024
recency floor, because every branch of lines 167-177 falls back to
`return field_value if field_value else ""`. -/
theorem prd_no_match_id (today : Nat) (text : String) (s : String)
    (hw : searchRel ("week".toList) (lowerL text.toList) = none)
    (hm : searchRel ("month".toList) (lowerL text.toList) = none)
    (hd : searchRel ("day".toList) (lowerL text.toList) = none)
    (hy : searchRel ("year".toList) (lowerL text.toList) = none) :
    parse_relative_date today text (Json.str s) = some s := by
  unfold parse_relative_date
  rw [hw, hm, hd, hy]
  by_cases hs : s = ""
  · subst hs; simp [truthy]
  · have ht : truthy (Json.str s) = true := by simp [truthy, hs]
    simp only [ht, if_true]
    by_cases hr : matchYMDRegex s.toList = true
    · simp only [hr, if_true]
      cases hp : strptimeYMD s with
      | none => simp [ht]
      | some ymd =>
        by_cases hy2 : 2024 ≤ ymd.1
        · simp [hy2]
        · simp [hy2, ht]
    · have hr' : matchYMDRegex s.toList = false := by
        cases hq : matchYMDRegex s.toList
        · rfl
        · exact absurd hq hr
      rw [hr']
      simp [ht]

/-- C4: with no relative expression in the text, a backend-supplied
`application_posted` string is kept: a valid `YYYY-MM-DD` with year ≥ 2024
is returned by the recency branch, and a below-floor value is not accepted
by that branch but is still left exactly as originally supplied (never
promoted to the current date), so the record's field is unchanged in both
cases (`app.py` lines 167-177 and 372-377). -/
theorem C4_recency_floor_keeps_supplied (today : Nat) :
    (∀ (text : String) (s : String),
        searchRel ("week".toList) (lowerL text.toList) = none →
        searchRel ("month".toList) (lowerL text.toList) = none →
        searchRel ("day".toList) (lowerL text.toList) = none →
        searchRel ("year".toList) (lowerL text.toList) = none →
        parse_relative_date today text (Json.str s) = some s)
    ∧ (∀ (raw_text : String) (jd : JObj) (s : String),
        searchRel ("week".toList) (lowerL raw_text.toList) = none →
        searchRel ("month".toList) (lowerL raw_text.toList) = none →
        searchRel ("day".toList) (lowerL raw_text.toList) = none →
        searchRel ("year".toList) (lowerL raw_text.toList) = none →
        dlookup jd "application_posted" = some (Json.str s) →
        temporalStage today raw_text jd = some jd) := by
  constructor
  · intro text s hw hm hd hy
    exact prd_no_match_id today text s hw hm hd hy
  · intro raw_text jd s hw hm hd hy hlk
    have hc : dcontains jd "application_posted" = true :=
      dcontains_of_dlookup _ _ _ hlk
    have hobj : truthy (Json.obj jd) = true := by
      cases jd with
      | nil => simp [dlookup] at hlk
      | cons kv rest => simp [truthy]
    have hget : dget jd "application_posted" (Json.str "") = Json.str s :=
      dget_of_dlookup _ _ _ _ hlk
    unfold temporalStage
    simp only [hobj, hc, Bool.and_self, if_true, hget]
    rw [prd_no_match_id today raw_text s hw hm hd hy]
    have hne : neqStr (Json.str s) s = false := by simp [neqStr]
    simp [hne]

/-- C4 witness: with no relative expression in `raw_plain`, the stale
backend value `"2022-07-01"` is left as supplied (and differs from today's
date, 2025-06-15), while the recent `"2025-01-15"` is kept. -/
theorem C4_witness :
    parse_relative_date today0 raw_plain (Json.str "2022-07-01")
        = some "2022-07-01"
    ∧ parse_relative_date today0 raw_plain (Json.str "2025-01-15")
        = some "2025-01-15"
    ∧ fmtDate today0 = "2025-06-15"
    ∧ ("2022-07-01" : String) ≠ "2025-06-15" := by
  refine ⟨?_, ?_, by rfl, by decide⟩
  · exact (C4_recency_floor_keeps_supplied today0).1 raw_plain _
      (by rfl) (by rfl) (by rfl) (by rfl)
  · exact (C4_recency_floor_keeps_supplied today0).1 raw_plain _
      (by rfl) (by rfl) (by rfl) (by rfl)

/-- C5: the JSON repair (`app.py` lines 222-276) first parses the cleaned
text (fence stripping, trimming, then discarding characters before the first
brace and after the last one), retries exactly once via first-brace/
last-brace boundary extraction on a parse failure, and yields no record
(`none`, never an exception) when that retry also fails; the prose-wrapped
object of the spec's example is recovered with all remaining fields
backfilled. -/
theorem C5_json_repair :
    (∀ (response : String) v, json_loadsL (cleanText response) = some v →
        repairParse response = some v)
    ∧ (∀ response : String, json_loadsL (cleanText response) = none →
        repairParse response = retryParse (cleanText response))
    ∧ (∀ today (raw_text response : String), repairParse response = none →
        extract_job_data_with_llm today raw_text response = none)
    ∧ (extract_job_data_with_llm today0 raw_plain respC5).map
        (fun p => (asStr (dget p.1 "position_title" Json.null),
                   asStr (dget p.1 "city" Json.null),
                   dget p.1 "number_of_viewed" Json.null,
                   asStr (dget (asObj p.2) "name" Json.null)))
      = some ("Engineer", "", Json.num 0, "") := by
  refine ⟨?_, ?_, ?_, by rfl⟩
  · intro response v h
    unfold repairParse
    rw [h]
  · intro response h
    unfold repairParse
    rw [h]
  · intro today raw_text response h
    unfold extract_job_data_with_llm
    rw [h]

/-- C5 witness: the strict parse succeeds on the cleaned prose-wrapped
example, and an unrecoverable response yields no record. -/
theorem C5_witness :
    repairParse respC5 = some valC5
    ∧ extract_job_data_with_llm today0 raw_plain respBad = none := by
  constructor
  · exact C5_json_repair.1 respC5 valC5 (by rfl)
  · exact C5_json_repair.2.2.1 today0 raw_plain respBad (by rfl)

/-- C6 (amended): the extraction pipeline itself performs no
`company_domain` derivation (that instruction is delegated to the backend by
the prompt): the normalizer passes a backend-supplied `company_domain`
through unchanged, backfills it with `""` when the key is absent — even when
`url` or an email is present in the record — and the flat-record fallback
always sets it to `""` (`app.py` lines 294-304 and 355-370). -/
theorem C6_no_domain_derivation :
    (∀ cd : JObj, dcontains cd "company_domain" = false →
        dlookup (mergeCompanyDefaults cd) "company_domain"
          = some (Json.str ""))
    ∧ (∀ (cd : JObj) v, dlookup cd "company_domain" = some v →
        dlookup (mergeCompanyDefaults cd) "company_domain" = some v)
    ∧ (∀ ed : JObj, dlookup (companyFromFlat ed) "company_domain"
        = some (Json.str "")) := by
  refine ⟨?_, ?_, ?_⟩
  · intro cd hmiss
    have hsplit : default_company_structure
        = [("name", Json.str ""), ("city", Json.str ""), ("state", Json.str ""),
           ("industry", Json.str ""), ("description", Json.str ""),
           ("url", Json.str "")]
          ++ ("company_domain", Json.str "")
            :: [("logo_url", Json.str ""), ("company_id", Json.str "")] := rfl
    unfold mergeCompanyDefaults
    rw [hsplit, List.foldl_append, List.foldl_cons]
    have hmiss2 : dcontains
        (List.foldl mergeStepC cd
          [("name", Json.str ""), ("city", Json.str ""), ("state", Json.str ""),
           ("industry", Json.str ""), ("description", Json.str ""),
           ("url", Json.str "")]) "company_domain" = false := by
      refine foldl_mergeStepC_not_contains _ cd "company_domain" ?_ hmiss
      intro kv hkv
      simp only [List.mem_cons, List.not_mem_nil, or_false] at hkv
      rcases hkv with rfl | rfl | rfl | rfl | rfl | rfl <;> decide
    apply foldl_mergeStepC_dlookup_preserve
    rw [mergeStepC_missing _ _ _ hmiss2]
    exact dlookup_dset_self _ _ _
  · intro cd v h
    exact foldl_mergeStepC_dlookup_preserve _ cd _ v h
  · intro ed
    rfl

/-- C6 counterexample: a backend company record with
`url = "https://www.infosys.com/careers"` and no `company_domain` leaves the
pipeline with `company_domain = ""`, not `"infosys.com"` — the pipeline does
not derive the domain. -/
theorem C6_counterexample :
    (extract_job_data_with_llm today0 raw_plain respC6).map
        (fun p => (asStr (dget (asObj p.2) "company_domain" Json.null),
                   asStr (dget (asObj p.2) "url" Json.null)))
      = some ("", "https://www.infosys.com/careers")
    ∧ ("" : String) ≠ "infosys.com" := by
  exact ⟨by rfl, by decide⟩

/-- C6 witness: the amended theorem applied to the spec's two example
records. -/
theorem C6_witness :
    dlookup (mergeCompanyDefaults
        [("url", Json.str "https://www.infosys.com/careers")])
      "company_domain" = some (Json.str "")
    ∧ dlookup (companyFromFlat [("company_url", Json.str "")])
      "company_domain" = some (Json.str "") := by
  constructor
  · exact C6_no_domain_derivation.1
      [("url", Json.str "https://www.infosys.com/careers")] (by rfl)
  · exact C6_no_domain_derivation.2.2 [("company_url", Json.str "")]

/-- C9: whenever extraction returns a job record the company result is
never absent — it is always a Python-truthy value (what `main`'s
`if job_data and company_data:` checks) — and whenever the backend output
carries no `company_data` key at all, that result is a company record
(an object) carrying all 9 schema fields: the `.get` default `{}` (or the
record synthesized from the flat object) is backfilled entirely from the
defaults (`app.py` lines 278-306, 367-370).  (A backend-supplied truthy
non-dict `company_data` naming all 9 fields can survive as a non-record —
see C2 — but then the `company_data` key was present.) -/
theorem C9_company_never_absent (today : Nat)
    (raw_text response : String) (j : JObj) (c : Json)
    (h : extract_job_data_with_llm today raw_text response = some (j, c)) :
    truthy c = true
    ∧ (∀ kvs, repairParse response = some (Json.obj kvs) →
        dcontains kvs "company_data" = false →
        ∃ o, c = Json.obj o
          ∧ ∀ k, k ∈ default_company_structure.map Prod.fst →
              dcontains o k = true) := by
  obtain ⟨ed, jd, cd, comp, jd2, h1, h2, h25, h3, hj, hc⟩ :=
    extract_success_shape today raw_text response j c h
  subst hc
  constructor
  · exact mergeCJ_truthy cd c h25
  · intro kvs hrep hnokey
    rw [h1, Option.some.injEq] at hrep
    subst hrep
    rcases getJC_no_company_key kvs jd cd h2 hnokey with hcd | hcd
    · subst hcd
      rw [mergeCompanyDefaultsJ_obj, Option.some.injEq] at h25
      exact ⟨mergeCompanyDefaults [], h25.symm,
        fun k hk => mergeCompanyDefaults_contains [] k hk⟩
    · subst hcd
      rw [mergeCompanyDefaultsJ_obj, Option.some.injEq] at h25
      exact ⟨mergeCompanyDefaults (companyFromFlat kvs), h25.symm,
        fun k hk => mergeCompanyDefaults_contains (companyFromFlat kvs) k hk⟩

/-- C9 witness: `respC9` has no `company_data` key; extraction still returns
a truthy company result, equal to the full default company record. -/
theorem C9_witness :
    truthy pairC9.2 = true
    ∧ pairC9.2 = Json.obj default_company_structure := by
  have h := C9_company_never_absent today0 raw_plain respC9 pairC9.1 pairC9.2
    (by rfl)
  exact ⟨h.1, by rfl⟩

theorem filter_congr_bool {α : Type} (l : List α) (p q : α → Bool)
    (h : ∀ x ∈ l, p x = q x) : l.filter p = l.filter q := by
  induction l with
  | nil => rfl
  | cons a rest ih =>
    simp only [List.filter]
    rw [h a (List.mem_cons_self a rest),
      ih (fun x hx => h x (List.mem_cons_of_mem a hx))]

/-- C7: `insert_job_data`/`insert_company_data`
(`utils/db_connection.py` lines 96-160 and 163-217): a record missing any
required field fails with a `ValueError` naming exactly the missing fields
and leaves the record untouched; the validation is structural only (it
depends only on which required field names are present); on the success path
the record is stamped with `inserted_at`, the write happens, and the
generated identifier is returned — and a returned identifier implies the
document was read back (`find_one`) and is the store's generated one. -/
theorem C7_persistence_gateway :
    (∀ (nd ni : String) (st : Store) (jd : JObj),
        (validate_json_structure jd).1 = false →
        insert_job_data nd ni st jd =
          (Except.error (DbErr.valueError
            ("Invalid JSON structure. Missing fields: "
              ++ joinComma (validate_json_structure jd).2)), jd))
    ∧ (∀ jd1 jd2 : JObj,
        (∀ f ∈ job_required_fields, dcontains jd1 f = dcontains jd2 f) →
        validate_json_structure jd1 = validate_json_structure jd2)
    ∧ (∀ (nd ni : String) (st : Store) (jd : JObj) (id : String),
        (validate_json_structure jd).1 = true → st.connect_ok = true →
        st.write_ok = true → st.inserted_id = some id →
        st.readback_ok = true →
        (insert_job_data nd ni st jd).1 = Except.ok id
        ∧ dget (insert_job_data nd ni st jd).2 "inserted_at" Json.null
            = Json.str ni)
    ∧ (∀ (nd ni : String) (st : Store) (jd : JObj) (id : String) (r : JObj),
        insert_job_data nd ni st jd = (Except.ok id, r) →
        st.readback_ok = true ∧ st.inserted_id = some id)
    ∧ (∀ (ni : String) (st : Store) (cd : JObj),
        (validate_company_structure cd).1 = false →
        insert_company_data ni st cd =
          (Except.error (DbErr.valueError
            ("Invalid company JSON structure. Missing fields: "
              ++ joinComma (validate_company_structure cd).2)), cd))
    ∧ (∀ cd1 cd2 : JObj,
        (∀ f ∈ company_required_fields, dcontains cd1 f = dcontains cd2 f) →
        validate_company_structure cd1 = validate_company_structure cd2)
    ∧ (∀ (ni : String) (st : Store) (cd : JObj) (id : String),
        (validate_company_structure cd).1 = true → st.connect_ok = true →
        st.write_ok = true → st.inserted_id = some id →
        st.readback_ok = true →
        (insert_company_data ni st cd).1 = Except.ok id
        ∧ dget (insert_company_data ni st cd).2 "inserted_at" Json.null
            = Json.str ni)
    ∧ (∀ (ni : String) (st : Store) (cd : JObj) (id : String) (r : JObj),
        insert_company_data ni st cd = (Except.ok id, r) →
        st.readback_ok = true ∧ st.inserted_id = some id) := by
  refine ⟨?_, ?_, ?_, ?_, ?_, ?_, ?_, ?_⟩
  · intro nd ni st jd hv
    unfold insert_job_data
    rw [hv]
    simp
  · intro jd1 jd2 hcong
    unfold validate_json_structure
    rw [filter_congr_bool job_required_fields _ _
      (fun f hf => by rw [hcong f hf])]
  · intro nd ni st jd id hv hc hw hid hr
    unfold insert_job_data
    rw [hv, hc, hw, hid, hr]
    simp only [Bool.not_true, Bool.false_eq_true, if_false, if_true]
    exact ⟨by trivial, dget_of_dlookup _ _ _ _ (dlookup_dset_self _ _ _)⟩
  · intro nd ni st jd id r h
    unfold insert_job_data at h
    cases hv : (validate_json_structure jd).1 with
    | false => rw [hv] at h; simp at h
    | true =>
      rw [hv] at h
      cases hc : st.connect_ok with
      | false => rw [hc] at h; simp at h
      | true =>
        rw [hc] at h
        cases hw : st.write_ok with
        | false => rw [hw] at h; simp at h
        | true =>
          rw [hw] at h
          cases hid : st.inserted_id with
          | none => rw [hid] at h; simp at h
          | some id' =>
            rw [hid] at h
            cases hr : st.readback_ok with
            | false => rw [hr] at h; simp at h
            | true =>
              rw [hr] at h
              simp only [Bool.not_true, Bool.false_eq_true, if_false, if_true,
                Prod.mk.injEq, Except.ok.injEq] at h
              exact ⟨rfl, by rw [h.1]⟩
  · intro ni st cd hv
    unfold insert_company_data
    rw [hv]
    simp
  · intro cd1 cd2 hcong
    unfold validate_company_structure
    rw [filter_congr_bool company_required_fields _ _
      (fun f hf => by rw [hcong f hf])]
  · intro ni st cd id hv hc hw hid hr
    unfold insert_company_data
    rw [hv, hc, hw, hid, hr]
    simp only [Bool.not_true, Bool.false_eq_true, if_false, if_true]
    exact ⟨by trivial, dget_of_dlookup _ _ _ _ (dlookup_dset_self _ _ _)⟩
  · intro ni st cd id r h
    unfold insert_company_data at h
    cases hv : (validate_company_structure cd).1 with
    | false => rw [hv] at h; simp at h
    | true =>
      rw [hv] at h
      cases hc : st.connect_ok with
      | false => rw [hc] at h; simp at h
      | true =>
        rw [hc] at h
        cases hw : st.write_ok with
        | false => rw [hw] at h; simp at h
        | true =>
          rw [hw] at h
          cases hid : st.inserted_id with
          | none => rw [hid] at h; simp at h
          | some id' =>
            rw [hid] at h
            cases hr : st.readback_ok with
            | false => rw [hr] at h; simp at h
            | true =>
              rw [hr] at h
              simp only [Bool.not_true, Bool.false_eq_true, if_false, if_true,
                Prod.mk.injEq, Except.ok.injEq] at h
              exact ⟨rfl, by rw [h.1]⟩

/-- C7 witness: an empty record fails validation with the message naming
every missing field and is returned unmodified; the full record inserts
against the healthy store, returning the generated identifier with
`inserted_at` stamped; likewise for the company gateway. -/
theorem C7_witness :
    insert_job_data "2025-06-15" "2025-06-15T12:00:00.000001" st_ok []
      = (Except.error (DbErr.valueError
          ("Invalid JSON structure. Missing fields: "
            ++ joinComma (validate_json_structure []).2)), [])
    ∧ (insert_job_data "2025-06-15" "2025-06-15T12:00:00.000001" st_ok jd_full).1
      = Except.ok "686f0a1b2c3d4e5f60718293"
    ∧ dget (insert_job_data "2025-06-15" "2025-06-15T12:00:00.000001"
          st_ok jd_full).2 "inserted_at" Json.null
      = Json.str "2025-06-15T12:00:00.000001"
    ∧ insert_company_data "2025-06-15T12:00:00.000001" st_ok []
      = (Except.error (DbErr.valueError
          ("Invalid company JSON structure. Missing fields: "
            ++ joinComma (validate_company_structure []).2)), [])
    ∧ (insert_company_data "2025-06-15T12:00:00.000001" st_ok cd_full).1
      = Except.ok "686f0a1b2c3d4e5f60718293" := by
  refine ⟨?_, ?_, ?_, ?_, ?_⟩
  · exact C7_persistence_gateway.1 "2025-06-15" "2025-06-15T12:00:00.000001"
      st_ok [] (by rfl)
  · exact (C7_persistence_gateway.2.2.1 "2025-06-15"
      "2025-06-15T12:00:00.000001" st_ok jd_full "686f0a1b2c3d4e5f60718293"
      (by rfl) (by rfl) (by rfl) (by rfl) (by rfl)).1
  · exact (C7_persistence_gateway.2.2.1 "2025-06-15"
      "2025-06-15T12:00:00.000001" st_ok jd_full "686f0a1b2c3d4e5f60718293"
      (by rfl) (by rfl) (by rfl) (by rfl) (by rfl)).2
  · exact C7_persistence_gateway.2.2.2.2.1 "2025-06-15T12:00:00.000001"
      st_ok [] (by rfl)
  · exact (C7_persistence_gateway.2.2.2.2.2.2.1 "2025-06-15T12:00:00.000001"
      st_ok cd_full "686f0a1b2c3d4e5f60718293"
      (by rfl) (by rfl) (by rfl) (by rfl) (by rfl)).1

/-- C10: once validation passes, both insert functions mutate the caller's
record before the store write — `insert_job_data` backfills a falsy
`created_date` with the current date and both stamp `inserted_at` — so on a
connection failure the caller's record has already been modified (it cannot
equal the original when the original lacked `inserted_at`).
(`utils/db_connection.py` lines 110-120 and 177-183.) -/
theorem C10_record_mutated_before_write :
    (∀ (nd ni : String) (st : Store) (jd : JObj),
        (validate_json_structure jd).1 = true → st.connect_ok = false →
        insert_job_data nd ni st jd
          = (Except.error DbErr.connectionFailure, jobMutate nd ni jd)
        ∧ dget (jobMutate nd ni jd) "inserted_at" Json.null = Json.str ni)
    ∧ (∀ (nd ni : String) (jd : JObj),
        dget jd "created_date" Json.null = Json.str "" →
        dget (jobMutate nd ni jd) "created_date" Json.null = Json.str nd)
    ∧ (∀ (nd ni : String) (st : Store) (jd : JObj),
        (validate_json_structure jd).1 = true → st.connect_ok = false →
        dcontains jd "inserted_at" = false →
        (insert_job_data nd ni st jd).2 ≠ jd)
    ∧ (∀ (ni : String) (st : Store) (cd : JObj),
        (validate_company_structure cd).1 = true → st.connect_ok = false →
        insert_company_data ni st cd
          = (Except.error DbErr.connectionFailure,
             dset cd "inserted_at" (Json.str ni))
        ∧ dget (dset cd "inserted_at" (Json.str ni)) "inserted_at" Json.null
            = Json.str ni)
    ∧ (∀ (ni : String) (st : Store) (cd : JObj),
        (validate_company_structure cd).1 = true → st.connect_ok = false →
        dcontains cd "inserted_at" = false →
        (insert_company_data ni st cd).2 ≠ cd) := by
  refine ⟨?_, ?_, ?_, ?_, ?_⟩
  · intro nd ni st jd hv hc
    unfold insert_job_data
    rw [hv, hc]
    simp only [Bool.not_true, Bool.false_eq_true, if_false, Bool.not_false,
      if_true]
    exact ⟨by trivial, dget_of_dlookup _ _ _ _ (dlookup_dset_self _ _ _)⟩
  · intro nd ni jd h
    have ht : truthy (dget jd "created_date" Json.null) = false := by
      rw [h]; simp [truthy]
    unfold jobMutate
    rw [ht]
    simp only [Bool.not_false, if_true]
    refine dget_of_dlookup _ _ _ _ ?_
    rw [dlookup_dset_ne _ "created_date" "inserted_at" _ (by decide)]
    exact dlookup_dset_self jd "created_date" (Json.str nd)
  · intro nd ni st jd hv hc hni heq
    have hm : (insert_job_data nd ni st jd).2 = jobMutate nd ni jd := by
      unfold insert_job_data
      rw [hv, hc]
      simp
    rw [hm] at heq
    have hcontains : dcontains (jobMutate nd ni jd) "inserted_at" = true := by
      unfold jobMutate
      exact dcontains_dset_self _ _ _
    rw [heq] at hcontains
    rw [hni] at hcontains
    cases hcontains
  · intro ni st cd hv hc
    unfold insert_company_data
    rw [hv, hc]
    simp only [Bool.not_true, Bool.false_eq_true, if_false, Bool.not_false,
      if_true]
    exact ⟨by trivial, dget_of_dlookup _ _ _ _ (dlookup_dset_self _ _ _)⟩
  · intro ni st cd hv hc hni heq
    have hm : (insert_company_data ni st cd).2
        = dset cd "inserted_at" (Json.str ni) := by
      unfold insert_company_data
      rw [hv, hc]
      simp
    rw [hm] at heq
    have hcontains : dcontains (dset cd "inserted_at" (Json.str ni))
        "inserted_at" = true := dcontains_dset_self _ _ _
    rw [heq] at hcontains
    rw [hni] at hcontains
    cases hcontains

/-- C10 witness: with the connection down, the job insert fails yet the
caller's record comes back mutated (stamped, and no longer equal to the
original); an empty `created_date` is backfilled with the supplied current
date; likewise for the company insert. -/
theorem C10_witness :
    insert_job_data "2025-06-15" "2025-06-15T12:00:00.000001" st_down jd_full
      = (Except.error DbErr.connectionFailure,
         jobMutate "2025-06-15" "2025-06-15T12:00:00.000001" jd_full)
    ∧ dget (jobMutate "2025-06-16" "2025-06-16T00:00:00" jd_cd_empty)
        "created_date" Json.null = Json.str "2025-06-16"
    ∧ (insert_job_data "2025-06-15" "2025-06-15T12:00:00.000001"
        st_down jd_full).2 ≠ jd_full
    ∧ (insert_company_data "2025-06-15T12:00:00.000001" st_down cd_full).2
        ≠ cd_full := by
  refine ⟨?_, ?_, ?_, ?_⟩
  · exact (C10_record_mutated_before_write.1 "2025-06-15"
      "2025-06-15T12:00:00.000001" st_down jd_full (by rfl) (by rfl)).1
  · exact C10_record_mutated_before_write.2.1 "2025-06-16"
      "2025-06-16T00:00:00" jd_cd_empty (by rfl)
  · exact C10_record_mutated_before_write.2.2.1 "2025-06-15"
      "2025-06-15T12:00:00.000001" st_down jd_full (by rfl) (by rfl) (by rfl)
  · exact C10_record_mutated_before_write.2.2.2.2 "2025-06-15T12:00:00.000001"
      st_down cd_full (by rfl) (by rfl) (by rfl)

/-- C8 (amended): the placeholder-marker check of
`validate_job_posting_text` (`app.py` lines 71-79) runs only after the
keyword/pattern gate of lines 57-69, so the marker-naming rejection is
guaranteed only for texts that also pass that gate: for every non-empty text
of at least 50 characters after trimming on which the gate passes (at least
3 keywords or at least one pattern) and whose lowercased form contains a
marker, the validator returns `false` with the message naming the first
matching marker, and that message contains the marker.  (A marker text that
fails the keyword gate is rejected with the generic message instead — see
`C8_counterexample`.) -/
theorem C8_marker_rejection_amended (text : String) (m : String)
    (hne : text ≠ "")
    (hlen : ¬ (pyStripL text.toList).length < 50)
    (hgate : 3 ≤ (job_keywords.filter
          (fun k => hasSub k.toList (lowerL text.toList))).length
        ∨ (job_patterns.filter
          (fun p => hasSub p.toList (lowerL text.toList))).length ≠ 0)
    (hmark : invalid_indicators.find?
        (fun i => hasSub i.toList (lowerL text.toList)) = some m) :
    validate_job_posting_text text = (false, msg_indicator m)
    ∧ hasSub m.toList (msg_indicator m).toList = true := by
  constructor
  · have e1 : decide (text = "") = false := decide_eq_false hne
    have e2 : decide ((pyStripL text.toList).length < 50) = false :=
      decide_eq_false hlen
    have h1 : (decide ((job_keywords.filter
          (fun k => hasSub k.toList (lowerL text.toList))).length < 3)
        && decide ((job_patterns.filter
          (fun p => hasSub p.toList (lowerL text.toList))).length = 0))
        = false := by
      rcases hgate with h | h
      · rw [decide_eq_false (Nat.not_lt.mpr h), Bool.false_and]
      · rw [decide_eq_false h, Bool.and_false]
    unfold validate_job_posting_text
    simp only [e1, e2, Bool.or_self, Bool.or_false, Bool.false_or,
      Bool.false_eq_true, if_false, h1, hmark]
  · have hmem : m ∈ invalid_indicators := List.mem_of_find?_eq_some hmark
    simp only [invalid_indicators, List.mem_cons, List.not_mem_nil,
      or_false] at hmem
    rcases hmem with rfl | rfl | rfl | rfl | rfl | rfl | rfl | rfl <;> decide

/-- C8 counterexample: `s8` is 76 characters, contains "lorem ipsum", and is
rejected — but with the generic not-a-job-posting message, which does not
report the marker: the claim's "reason reports the offending marker" fails.
-/
theorem C8_counterexample :
    (50 ≤ (pyStripL s8.toList).length)
    ∧ hasSub ("lorem ipsum".toList) (lowerL s8.toList) = true
    ∧ (validate_job_posting_text s8).1 = false
    ∧ (validate_job_posting_text s8).2 = msg_not_job_posting
    ∧ hasSub ("lorem ipsum".toList)
        (lowerL (validate_job_posting_text s8).2.toList) = false := by
  exact ⟨by decide, by rfl, by rfl, by rfl, by rfl⟩

/-- C8 witness: `s8b` passes the keyword gate and contains "placeholder";
the validator rejects it with the marker-naming message. -/
theorem C8_witness :
    validate_job_posting_text s8b = (false, msg_indicator "placeholder")
    ∧ hasSub ("placeholder".toList) (msg_indicator "placeholder").toList
        = true := by
  exact C8_marker_rejection_amended s8b "placeholder" (by decide) (by decide)
    (Or.inl (by decide)) (by rfl)
